import Mathlib

/-!
Verification of the Metrics & Deterministic Assessment Engine.

A shallow embedding, in Lean 4, of the core of the `ai-market-coach`
repository: the price-metrics computation (`app/core/analysis.py`), the
seeded quiz/flashcard generator (`app/core/learning.py`) and the seed
derivation (`app/api/routes.py`), together with proofs and refutations of
the specification's claims about them.

Conventions of the embedding:

* Python `float` values are modelled by `PFloat`: either a finite rational
  (`fin q`, real-valued idealization of IEEE doubles — rounding is not
  modelled), a signed infinity (`inf`), or `nan`.  Pandas/NumPy produce
  `nan`/`inf` through division by zero and through statistics of
  empty/short series; those paths are modelled explicitly because several
  claims turn on them.
* Dynamically typed Python values reaching the quiz generator are modelled
  by `PyVal` (absent / float / string / other object).
* Exceptions are modelled with `Except PyErr`.
* `random.Random` (CPython's Mersenne Twister) is not repository code; it
  is modelled by `PyRandom`, an explicitly threaded deterministic stream:
  a pure function of the seed and a step counter.  Everything proved about
  shuffling holds for every seed and, where it matters, for arbitrary
  streams of drawn values.
-/

/-! ## Model of Python floats -/

/-- Model of a Python `float`: a finite rational (real-valued idealization
of an IEEE double), a signed infinity (`inf true` = `+inf`), or `nan`. -/
inductive PFloat where
  | nan : PFloat
  | inf (pos : Bool) : PFloat
  | fin (q : ℚ) : PFloat
deriving DecidableEq, Repr

/-- NumPy-style division of two finite doubles: `x/0` is `±inf` for
`x ≠ 0` and `nan` for `x = 0`; otherwise the exact quotient. -/
def fdiv (a b : ℚ) : PFloat :=
  if b = 0 then
    if a = 0 then .nan else .inf (decide (0 < a))
  else .fin (a / b)

/-- `x - 1` on a Python float (used by `pct_change`). -/
def fsub1 : PFloat → PFloat
  | .nan => .nan
  | .inf s => .inf s
  | .fin q => .fin (q - 1)

/-- Multiplication of a Python float by a finite constant `c`. -/
def fscale (c : ℚ) : PFloat → PFloat
  | .nan => .nan
  | .inf s => if c = 0 then .nan else if 0 < c then .inf s else .inf (!s)
  | .fin q => .fin (q * c)

/-- Comparison used for minimisation over non-`nan` floats:
`-inf < fin _ < +inf`.  (`nan` never reaches it through `fminSkipna`.) -/
def fleB : PFloat → PFloat → Bool
  | .inf false, _ => true
  | _, .inf false => false
  | .inf true, .inf true => true
  | .fin _, .inf true => true
  | .inf true, .fin _ => false
  | .fin p, .fin q => decide (p ≤ q)
  | .nan, _ => false
  | _, .nan => true

/-- Binary minimum of two (non-`nan`) Python floats. -/
def fmin2 (a b : PFloat) : PFloat := if fleB a b then a else b

/-- `Series.min()` with pandas' default `skipna=True`: drop `nan`s and
minimise; an all-`nan`/empty series has minimum `nan`. -/
def fminSkipna (l : List PFloat) : PFloat :=
  match l.filter (fun f => f ≠ PFloat.nan) with
  | [] => .nan
  | h :: t => t.foldl fmin2 h

/-- Rational stand-in for the real square root (used only inside the
sample standard deviation, whose numeric value no claim depends on; only
its `nan`-ness/sign matter).  For `q ≥ 0` it returns `⌊√(num·den)⌋/den`,
a non-negative rational approximation of `√q`. -/
def sqrtQ (q : ℚ) : ℚ :=
  if q ≤ 0 then 0 else (Nat.sqrt (q.num.toNat * q.den) : ℚ) / (q.den : ℚ)

/-- The finite entries of a list of Python floats. -/
def finParts (l : List PFloat) : List ℚ :=
  l.filterMap (fun f => match f with | .fin q => some q | _ => none)

/-- `Series.mean()` with `skipna=True`: `nan`s are dropped; an empty
result or mixed-sign infinities give `nan`; a single-signed infinity
dominates; otherwise the exact arithmetic mean. -/
def fmean (l : List PFloat) : PFloat :=
  let kept := l.filter (fun f => f ≠ PFloat.nan)
  if kept.isEmpty then .nan
  else if kept.contains (PFloat.inf true) ∧ kept.contains (PFloat.inf false) then .nan
  else if kept.contains (PFloat.inf true) then .inf true
  else if kept.contains (PFloat.inf false) then .inf false
  else .fin ((finParts kept).sum / (kept.length : ℚ))

/-- `Series.std()` with `skipna=True` and the default `ddof=1` (sample
standard deviation): `nan` when fewer than two non-`nan` entries remain or
when an infinity is present, else `√(Σ(x-μ)²/(n-1))`. -/
def fstd (l : List PFloat) : PFloat :=
  let kept := l.filter (fun f => f ≠ PFloat.nan)
  if kept.length < 2 then .nan
  else if kept.any (fun f => f = PFloat.inf true ∨ f = PFloat.inf false) then .nan
  else
    let xs := finParts kept
    let n : ℚ := (xs.length : ℚ)
    let mu : ℚ := xs.sum / n
    .fin (sqrtQ ((xs.map (fun x => (x - mu) * (x - mu))).sum / (n - 1)))

/-! ## Errors and tabular input -/

/-- Exceptions that the embedded code can raise.  `keyError` models a
pandas/Python `KeyError` (column lookup), `indexError` an out-of-range
`iloc`, `valueError` the explicit `ValueError` raised by
`get_price_history`, `providerError` an arbitrary exception escaping the
market-data provider.  `dataFormatError` is the error *type posited by the
specification* for the missing-close-column case; no such type exists in
the repository and no definition below ever constructs it. -/
inductive PyErr where
  | keyError (key : String)
  | indexError
  | valueError (msg : String)
  | providerError (msg : String)
  | dataFormatError (msg : String)
deriving DecidableEq, Repr

/-- A pandas `DataFrame`, reduced to what the core consumes: labelled
columns of (finite) float values. -/
structure DataFrame where
  cols : List (String × List ℚ)
deriving DecidableEq, Repr

/-- `df[name]`: first column with the given label, else `KeyError(name)`
— pandas names only the missing key in that error, not the available
columns. -/
def DataFrame.getCol (df : DataFrame) (name : String) : Except PyErr (List ℚ) :=
  match df.cols.find? (fun c => c.fst == name) with
  | some c => .ok c.snd
  | none => .error (.keyError name)

/-- `df.empty`: no columns, or every column has no rows. -/
def DataFrame.isEmpty (df : DataFrame) : Bool :=
  df.cols.isEmpty || df.cols.all (fun c => c.snd.isEmpty)

/-! ## Metrics Engine (`compute_price_metrics`) -/

/-- The metrics record produced by `compute_price_metrics`.  The four raw
price fields are plain finite floats read off the series; the five derived
statistics can be `nan`/`inf` and are therefore `PFloat`. -/
structure Metrics where
  last_price : ℚ
  start_price : ℚ
  period_return_pct : PFloat
  daily_volatility_pct : PFloat
  annualized_volatility_pct : PFloat
  max_drawdown_pct : PFloat
  mean_daily_return_pct : PFloat
  min_price : ℚ
  max_price : ℚ
deriving DecidableEq, Repr

/-- The exact value of the IEEE double `np.sqrt(252)` (the annualization
factor). -/
def sqrt252 : ℚ := (8936553463969119 : ℚ) / 562949953421312

/-- `close.pct_change().dropna()`: consecutive simple returns
`close[i]/close[i-1] - 1`; `dropna` removes `nan` entries (the leading one,
and any `0/0`) but keeps infinities. -/
def pctChangeDropna (close : List ℚ) : List PFloat :=
  ((close.zip close.tail).map (fun p => fsub1 (fdiv p.snd p.fst))).filter
    (fun f => f ≠ PFloat.nan)

/-- Helper for `cummax`: running maxima of `l` with carried maximum `m`. -/
def cummaxFrom (m : ℚ) : List ℚ → List ℚ
  | [] => []
  | c :: cs => max m c :: cummaxFrom (max m c) cs

/-- `close.cummax()`: running maxima of the series. -/
def cummax : List ℚ → List ℚ
  | [] => []
  | c :: cs => c :: cummaxFrom c cs

/-- `(close - running_max) / running_max`, elementwise. -/
def drawdowns (close : List ℚ) : List PFloat :=
  (close.zip (cummax close)).map (fun p => fdiv (p.fst - p.snd) p.snd)

/-- The body of `compute_price_metrics` on a non-empty close series
`c0 :: rest`, mirroring `app/core/analysis.py` lines 35–57. -/
def metricsOf (c0 : ℚ) (rest : List ℚ) : Metrics :=
  let close := c0 :: rest
  let returns := pctChangeDropna close
  let daily_vol := fstd returns
  { last_price := rest.getLastD c0
    start_price := c0
    period_return_pct := fscale 100 (fsub1 (fdiv (rest.getLastD c0) c0))
    daily_volatility_pct := fscale 100 daily_vol
    annualized_volatility_pct := fscale 100 (fscale sqrt252 daily_vol)
    max_drawdown_pct := fscale 100 (fminSkipna (drawdowns close))
    mean_daily_return_pct := fscale 100 (fmean returns)
    min_price := rest.foldl min c0
    max_price := rest.foldl max c0 }

/-- `compute_price_metrics` (`app/core/analysis.py:29`): looks up the
`"Close"` column (a missing column is a `KeyError`, exactly as in pandas),
then computes the metrics; `close.iloc[-1]` on an empty column raises
`IndexError`. -/
def compute_price_metrics (price_df : DataFrame) : Except PyErr Metrics :=
  match price_df.getCol "Close" with
  | .error e => .error e
  | .ok close =>
    match close with
    | [] => .error .indexError
    | c0 :: rest => .ok (metricsOf c0 rest)

/-! ## Analysis Coordinator (`get_company_snapshot`, `analyze_ticker`) -/

/-- Python's `str.strip()`: drop leading and trailing whitespace
(modelled character-wise, which is how CPython treats ASCII input). -/
def pyStrip (s : String) : String :=
  String.mk (((s.data.dropWhile Char.isWhitespace).reverse.dropWhile
    Char.isWhitespace).reverse)

/-- Python's `str.upper()`: character-wise upper-casing. -/
def pyUpper (s : String) : String := String.mk (s.data.map Char.toUpper)

/-- A dynamically typed Python value as it reaches the loosely-typed
layers: `none` is Python `None`/a missing key, `num` a float (or int,
coerced), `str` a string, `other` any other object (unconvertible to
float). -/
inductive PyVal where
  | none : PyVal
  | num (f : PFloat) : PyVal
  | str (s : String) : PyVal
  | other : PyVal
deriving DecidableEq, Repr

/-- The provider record behind `yfinance.Ticker(t).info`, reduced to the
keys the adapter reads.  A missing key is `PyVal.none` (that is what
`info.get(k)` returns). -/
structure InfoDict where
  shortName : PyVal
  longName : PyVal
  sector : PyVal
  industry : PyVal
  marketCap : PyVal
  trailingPE : PyVal
  forwardPE : PyVal
  dividendYield : PyVal
  beta : PyVal
  currency : PyVal
  exchange : PyVal
  country : PyVal
deriving DecidableEq, Repr

/-- `{}` — the empty provider record. -/
def InfoDict.empty : InfoDict :=
  ⟨.none, .none, .none, .none, .none, .none, .none, .none, .none, .none, .none, .none⟩

/-- The canonical company snapshot built by `get_company_snapshot`:
`ticker` is always set; every other field is whatever the provider record
held (absent fields stay `PyVal.none`). -/
structure Snapshot where
  ticker : String
  short_name : PyVal
  long_name : PyVal
  sector : PyVal
  industry : PyVal
  market_cap : PyVal
  trailing_pe : PyVal
  forward_pe : PyVal
  dividend_yield : PyVal
  beta : PyVal
  currency : PyVal
  exchange : PyVal
  country : PyVal
deriving DecidableEq, Repr

/-- The pure part of `get_company_snapshot`: map a provider record to the
snapshot (`app/core/analysis.py:70`). -/
def snapshotOf (ticker : String) (info : InfoDict) : Snapshot :=
  { ticker := pyUpper ticker
    short_name := info.shortName
    long_name := info.longName
    sector := info.sector
    industry := info.industry
    market_cap := info.marketCap
    trailing_pe := info.trailingPE
    forward_pe := info.forwardPE
    dividend_yield := info.dividendYield
    beta := info.beta
    currency := info.currency
    exchange := info.exchange
    country := info.country }

/-- `get_company_snapshot` (`app/core/analysis.py:62`).  The evaluation of
`yf.Ticker(ticker).info` is an effect outside the core; it is passed in as
`infoFetch`: an exception (`.error`), or `.ok none` when the provider
returned `None` (the code's `t.info or {}` then substitutes `{}`).  There
is **no** exception handling in this function: a raising provider
propagates. -/
def get_company_snapshot (ticker : String)
    (infoFetch : Except PyErr (Option InfoDict)) : Except PyErr Snapshot :=
  match infoFetch with
  | .error e => .error e
  | .ok info => .ok (snapshotOf ticker (info.getD InfoDict.empty))

/-- `get_price_history` (`app/core/analysis.py:10`): the `yf.download`
call is passed in as `fetch`; an empty frame raises
`ValueError("No price data found ...")`. -/
def get_price_history (ticker : String)
    (fetch : Except PyErr DataFrame) : Except PyErr DataFrame :=
  match fetch with
  | .error e => .error e
  | .ok df =>
    if df.isEmpty then
      .error (.valueError ("No price data found for ticker \x27" ++ ticker ++ "\x27."))
    else .ok df

/-- The analysis record returned by `analyze_ticker`. -/
structure AnalysisOut where
  ticker : String
  as_of : String
  period : String
  interval : String
  company : Snapshot
  price_metrics : Metrics
deriving DecidableEq, Repr

/-- `analyze_ticker` (`app/core/analysis.py:88`): upper-cases the ticker,
then price history → metrics → company snapshot, all sequential, each
failure propagating.  `now` is the wall-clock `as_of` stamp, passed in. -/
def analyze_ticker (ticker period interval : String)
    (fetch : Except PyErr DataFrame) (infoFetch : Except PyErr (Option InfoDict))
    (now : String) : Except PyErr AnalysisOut :=
  let tU := pyUpper ticker
  match get_price_history tU fetch with
  | .error e => .error e
  | .ok df =>
    match compute_price_metrics df with
    | .error e => .error e
    | .ok pm =>
      match get_company_snapshot tU infoFetch with
      | .error e => .error e
      | .ok snap =>
        .ok { ticker := tU, as_of := now, period := period, interval := interval,
              company := snap, price_metrics := pm }

/-! ## Seed derivation (`stable_seed`, `app/api/routes.py:30`)

`stable_seed` hashes the normalized request key with SHA-256 and parses
the first 8 hex digits of the digest.  SHA-256 itself is library code
(`hashlib`); it is embedded below in full (FIPS 180-4) so that the seed
really is the stated function of the key. -/

/-- 32-bit truncation. -/
def w32 (x : Nat) : Nat := x % 4294967296

/-- Right rotation of a 32-bit word. -/
def rotr32 (n x : Nat) : Nat := w32 ((x >>> n) ||| (x <<< (32 - n)))

def bigSigma0 (x : Nat) : Nat := (rotr32 2 x) ^^^ (rotr32 13 x) ^^^ (rotr32 22 x)

def bigSigma1 (x : Nat) : Nat := (rotr32 6 x) ^^^ (rotr32 11 x) ^^^ (rotr32 25 x)

def smallSigma0 (x : Nat) : Nat := (rotr32 7 x) ^^^ (rotr32 18 x) ^^^ (x >>> 3)

def smallSigma1 (x : Nat) : Nat := (rotr32 17 x) ^^^ (rotr32 19 x) ^^^ (x >>> 10)

def chFn (x y z : Nat) : Nat := (x &&& y) ^^^ ((x ^^^ 4294967295) &&& z)

def majFn (x y z : Nat) : Nat := (x &&& y) ^^^ (x &&& z) ^^^ (y &&& z)

/-- The SHA-256 round constants. -/
def sha256K : List Nat :=
  [1116352408, 1899447441, 3049323471, 3921009573, 961987163,
   1508970993, 2453635748, 2870763221, 3624381080, 310598401,
   607225278, 1426881987, 1925078388, 2162078206, 2614888103,
   3248222580, 3835390401, 4022224774, 264347078, 604807628,
   770255983, 1249150122, 1555081692, 1996064986, 2554220882,
   2821834349, 2952996808, 3210313671, 3336571891, 3584528711,
   113926993, 338241895, 666307205, 773529912, 1294757372,
   1396182291, 1695183700, 1986661051, 2177026350, 2456956037,
   2730485921, 2820302411, 3259730800, 3345764771, 3516065817,
   3600352804, 4094571909, 275423344, 430227734, 506948616,
   659060556, 883997877, 958139571, 1322822218, 1537002063,
   1747873779, 1955562222, 2024104815, 2227730452, 2361852424,
   2428436474, 2756734187, 3204031479, 3329325298]

/-- The SHA-256 initial hash value. -/
def sha256H0 : List Nat :=
  [1779033703, 3144134277, 1013904242, 2773480762,
   1359893119, 2600822924, 528734635, 1541459225]

/-- `k` bytes of `n`, big-endian. -/
def beBytes (k n : Nat) : List Nat :=
  (List.range k).map (fun i => (n >>> (8 * (k - 1 - i))) % 256)

/-- FIPS 180-4 padding: append `0x80`, zero bytes to 56 mod 64, then the
bit length on 8 bytes. -/
def sha256Pad (msg : List Nat) : List Nat :=
  msg ++ [128] ++ List.replicate ((119 - msg.length % 64) % 64) 0
      ++ beBytes 8 (8 * msg.length)

/-- Split a byte list into 64-byte chunks (fuelled recursion; the fuel is
an upper bound on the number of chunks). -/
def chunks64 : Nat → List Nat → List (List Nat)
  | 0, _ => []
  | _, [] => []
  | fuel + 1, l => l.take 64 :: chunks64 fuel (l.drop 64)

/-- The 16 initial 32-bit words of a 64-byte block. -/
def words16 (block : List Nat) : List Nat :=
  (List.range 16).map (fun i =>
    (block.getD (4 * i) 0) <<< 24 + (block.getD (4 * i + 1) 0) <<< 16
      + (block.getD (4 * i + 2) 0) <<< 8 + block.getD (4 * i + 3) 0)

/-- Extend the message schedule by `n` further words. -/
def extendSchedule : List Nat → Nat → List Nat
  | w, 0 => w
  | w, n + 1 =>
    let t := w.length
    extendSchedule
      (w ++ [w32 (smallSigma1 (w.getD (t - 2) 0) + w.getD (t - 7) 0
                   + smallSigma0 (w.getD (t - 15) 0) + w.getD (t - 16) 0)]) n

/-- One round of the SHA-256 compression function. -/
def compressStep (w : List Nat) (st : List Nat) (t : Nat) : List Nat :=
  match st with
  | [a, b, c, d, e, f, g, h] =>
    let T1 := w32 (h + bigSigma1 e + chFn e f g + sha256K.getD t 0 + w.getD t 0)
    let T2 := w32 (bigSigma0 a + majFn a b c)
    [w32 (T1 + T2), a, b, c, w32 (d + T1), e, f, g]
  | _ => st

/-- Process one 64-byte block. -/
def processBlock (H : List Nat) (block : List Nat) : List Nat :=
  let w := extendSchedule (words16 block) 48
  let st := (List.range 64).foldl (compressStep w) H
  (H.zip st).map (fun p => w32 (p.fst + p.snd))

/-- SHA-256 of a byte string, as the 8 hash words. -/
def sha256Words (msg : List Nat) : List Nat :=
  (chunks64 (msg.length / 64 + 2) (sha256Pad msg)).foldl processBlock sha256H0

/-- Lower-case hex digit. -/
def hexChar (n : Nat) : Char :=
  if n < 10 then Char.ofNat (48 + n) else Char.ofNat (87 + n)

/-- Eight hex digits of a 32-bit word, big-endian. -/
def wordHex (w : Nat) : List Char :=
  (List.range 8).map (fun i => hexChar ((w >>> (28 - 4 * i)) % 16))

/-- `hashlib.sha256(msg).hexdigest()`. -/
def sha256Hex (msg : List Nat) : String :=
  String.mk ((sha256Words msg).foldl (fun acc w => acc ++ wordHex w) [])

/-- UTF-8 encoding of one character (what `str.encode()` does). -/
def utf8Char (c : Char) : List Nat :=
  let n := c.toNat
  if n < 128 then [n]
  else if n < 2048 then [192 + n / 64, 128 + n % 64]
  else if n < 65536 then [224 + n / 4096, 128 + (n / 64) % 64, 128 + n % 64]
  else [240 + n / 262144, 128 + (n / 4096) % 64, 128 + (n / 64) % 64, 128 + n % 64]

/-- `str.encode()`: UTF-8 bytes of a string. -/
def utf8Encode (s : String) : List Nat :=
  s.data.foldl (fun acc c => acc ++ utf8Char c) []

/-- Value of a (lower-case) hex digit. -/
def hexDigitVal (c : Char) : Nat :=
  if 97 ≤ c.toNat then c.toNat - 87
  else if 65 ≤ c.toNat then c.toNat - 55
  else c.toNat - 48

/-- `int(s, 16)` on a hex string. -/
def hexToNat (s : String) : Nat :=
  s.data.foldl (fun acc c => acc * 16 + hexDigitVal c) 0

/-- `stable_seed` (`app/api/routes.py:30`): normalize the four request
fields, join them with `|`, SHA-256 the UTF-8 bytes, and parse the first
8 hex digits of the digest as the seed. -/
def stable_seed (ticker period interval user_level : String) : Nat :=
  let t := pyUpper (pyStrip ticker)
  let p := pyStrip period
  let i := pyStrip interval
  let u := pyStrip user_level
  let key := t ++ "|" ++ p ++ "|" ++ i ++ "|" ++ u
  hexToNat ((sha256Hex (utf8Encode key)).take 8)

/-! ## Model of `random.Random`

The quiz generator threads one `random.Random(seed)` instance (CPython's
Mersenne Twister) through every shuffle.  The generator's internal
algorithm is library code, not repository code; it is modelled as an
explicitly threaded state: a pure mixing function of the seed and a step
counter, consumed one draw at a time.  This captures exactly the property
the repository relies on — the stream of drawn values is a deterministic
function of the seed — while every shuffle theorem below is proved for
*all* seeds and step positions, hence for arbitrary draw streams. -/

structure PyRandom where
  seed : Nat
  step : Nat
deriving DecidableEq, Repr

/-- `random.Random(seed)`: a fresh generator at step 0. -/
def PyRandom.init (seed : Nat) : PyRandom := ⟨seed, 0⟩

/-- The deterministic mixing function standing in for the Mersenne
Twister's output stream (64-bit LCG-style mix; any fixed function works,
no theorem depends on its values). -/
def mixRand (seed step : Nat) : Nat :=
  (seed * 6364136223846793005 + step * 1442695040888963407 + 1013904223)
    % 18446744073709551616

/-- `rng._randbelow(n)`: one draw in `[0, n)`, advancing the state. -/
def randbelow (g : PyRandom) (n : Nat) : Nat × PyRandom :=
  (mixRand g.seed g.step % n, ⟨g.seed, g.step + 1⟩)

/-- The simultaneous swap `x[i], x[j] = x[j], x[i]` on a list (identity
when an index is out of range — never the case inside `pyShuffle`). -/
def listSwap (l : List α) (a b : Nat) : List α :=
  match l[a]?, l[b]? with
  | some x, some y => (l.set a y).set b x
  | _, _ => l

/-- The Fisher–Yates loop of `random.shuffle`:
`for i in reversed(range(1, len(x))): j = randbelow(i+1); swap(i, j)`.
The counter counts the remaining iterations, so a call with counter `i`
performs the swap at position `i + 1` with `j = randbelow(i + 2)`. -/
def shuffleSteps (l : List α) (g : PyRandom) : Nat → List α × PyRandom
  | 0 => (l, g)
  | i + 1 =>
    let (j, g1) := randbelow g (i + 2)
    shuffleSteps (listSwap l (i + 1) j) g1 i

/-- `rng.shuffle(x)`: Fisher–Yates over the whole list. -/
def pyShuffle (l : List α) (g : PyRandom) : List α × PyRandom :=
  shuffleSteps l g (l.length - 1)

/-! ## Learning module (`app/core/learning.py`) -/

/-- Decimal-digit test. -/
def isDigitCh (c : Char) : Bool := 48 ≤ c.toNat && c.toNat ≤ 57

/-- Value of a decimal digit string. -/
def digitsVal (cs : List Char) : Nat := cs.foldl (fun a c => a * 10 + (c.toNat - 48)) 0

/-- Strip one leading sign; returns (isNegative, rest). -/
def parseSign : List Char → Bool × List Char
  | c :: t => if c = '-' then (true, t) else if c = '+' then (false, t) else (false, c :: t)
  | [] => (false, [])

/-- Mantissa `digits[.digits]` with at least one digit somewhere. -/
def parseMantissa (cs : List Char) : Option ℚ :=
  let ip := cs.takeWhile isDigitCh
  let rest := cs.dropWhile isDigitCh
  match rest with
  | [] => if ip.isEmpty then Option.none else some (digitsVal ip : ℚ)
  | c :: frac =>
    if c = '.' ∧ frac.all isDigitCh ∧ (¬ip.isEmpty ∨ ¬frac.isEmpty) then
      some ((digitsVal ip : ℚ) + (digitsVal frac : ℚ) / ((10 : ℚ) ^ frac.length))
    else Option.none

/-- Split at the first `e`/`E` (decimal exponent marker). -/
def splitExp (cs : List Char) : List Char × Option (List Char) :=
  match cs.findIdx? (fun c => c = 'e' ∨ c = 'E') with
  | some i => (cs.take i, some (cs.drop (i + 1)))
  | Option.none => (cs, Option.none)

/-- Signed decimal exponent. -/
def parseExp (cs : List Char) : Option Int :=
  let (neg, r) := parseSign cs
  if ¬r.isEmpty ∧ r.all isDigitCh then
    some (if neg then -(digitsVal r : Int) else (digitsVal r : Int))
  else Option.none

/-- CPython's `float(str)`, modelled for trimmed decimal notation,
`inf`/`infinity` and `nan` (case-insensitive, optionally signed).
Anything else fails (`none` = `ValueError`). -/
def parseFloat (s : String) : Option PFloat :=
  let cs := (pyStrip s).data
  let (neg, r) := parseSign cs
  let low := r.map Char.toLower
  if low = "inf".data ∨ low = "infinity".data then some (.inf (!neg))
  else if low = "nan".data then some .nan
  else
    let (mant, expPart) := splitExp r
    match parseMantissa mant with
    | Option.none => Option.none
    | some m =>
      let signed : ℚ := if neg then -m else m
      match expPart with
      | Option.none => some (.fin signed)
      | some ec =>
        match parseExp ec with
        | Option.none => Option.none
        | some e => some (.fin (signed * (10 : ℚ) ^ e))

/-- CPython's `float(x)` on a dynamic value: floats pass through
(including `nan`/`inf`), strings are parsed, everything else raises
(`none`). -/
def pyFloat : PyVal → Option PFloat
  | .num f => some f
  | .str s => parseFloat s
  | _ => Option.none

/-- `_safe_float` (`app/core/learning.py:8`): `None` and any
unconvertible value give `default`; otherwise `float(x)`. -/
def _safe_float (x : PyVal) (default : Option PFloat) : Option PFloat :=
  match x with
  | .none => default
  | _ =>
    match pyFloat x with
    | some f => some f
    | Option.none => default

/-- Python truthiness of a float: everything except `0.0` (and `-0.0`)
is truthy; `nan` and the infinities are truthy. -/
def truthyF : PFloat → Bool
  | .nan => true
  | .inf _ => true
  | .fin q => decide (q ≠ 0)

/-- `x or d` on an optional float. -/
def pyOrF (x : Option PFloat) (d : PFloat) : PFloat :=
  match x with
  | some f => if truthyF f then f else d
  | Option.none => d

/-- `f >= 0` with Python float comparison (`nan >= 0` is false). -/
def fge0 : PFloat → Bool
  | .nan => false
  | .inf s => s
  | .fin q => decide (0 ≤ q)

/-- `f < c` with Python float comparison (`nan < c` is false). -/
def fltQ (c : ℚ) : PFloat → Bool
  | .nan => false
  | .inf s => !s
  | .fin q => decide (q < c)

/-- `f >= c` with Python float comparison (`nan >= c` is false). -/
def fgeQ (c : ℚ) : PFloat → Bool
  | .nan => false
  | .inf s => s
  | .fin q => decide (c ≤ q)

/-- Python `==` on floats: `nan` is not equal to anything, itself
included. -/
def pyEqF : PFloat → PFloat → Bool
  | .fin p, .fin q => decide (p = q)
  | .inf s, .inf t => s == t
  | _, _ => false

/-- Python `!=` on floats — note `nan != nan` is **true**. -/
def pyNeF (a b : PFloat) : Bool := !pyEqF a b

/-- Truthiness of an optional string (`if sector:`): present and
non-empty. -/
def truthyS : Option String → Bool
  | some s => !s.isEmpty
  | _ => false

/-- `a or b or t` on two optional strings with a final fallback
(`company.get("short_name") or company.get("long_name") or ticker`). -/
def pyOrStr2 (a b : Option String) (t : String) : String :=
  if truthyS a then a.getD "" else if truthyS b then b.getD "" else t

/-- `_market_cap_bucket` (`app/core/learning.py:39`). -/
def _market_cap_bucket (market_cap : Option PFloat) : String :=
  match market_cap with
  | Option.none => "N/A"
  | some f =>
    if fgeQ 200000000000 f then "Large-cap"
    else if fgeQ 10000000000 f then "Mid-cap"
    else if fgeQ 2000000000 f then "Small-cap"
    else "Micro-cap"

/-- `_vol_bucket` (`app/core/learning.py:51`). -/
def _vol_bucket (ann_vol : Option PFloat) : String :=
  match ann_vol with
  | Option.none => "N/A"
  | some f => if fltQ 15 f then "Low" else if fltQ 30 f then "Moderate" else "High"

/-- Fixed-point decimal rendering of a rational to `d` digits (rounds to
nearest; stands in for CPython's float formatting, whose exact rounding no
claim depends on). -/
def fmtFix (d : Nat) (q : ℚ) : String :=
  let n : Int := round (q * (10 : ℚ) ^ d)
  let frac := toString (n.natAbs % 10 ^ d)
  (if n < 0 then "-" else "") ++ toString (n.natAbs / 10 ^ d) ++ "."
    ++ String.mk (List.replicate (d - frac.length) '0') ++ frac

/-- `_fmt_pct` (`app/core/learning.py:17`): `"N/A"` for `None`, else
`f"{x:.2f}%"`. -/
def _fmt_pct (x : Option PFloat) : String :=
  match x with
  | Option.none => "N/A"
  | some .nan => "nan%"
  | some (.inf s) => (if s then "inf" else "-inf") ++ "%"
  | some (.fin q) => fmtFix 2 q ++ "%"

/-- Digit chunks of 3, least-significant first (fuelled). -/
def commaChunks : Nat → List Char → List (List Char)
  | 0, _ => []
  | _, [] => []
  | fuel + 1, l => l.take 3 :: commaChunks fuel (l.drop 3)

/-- Thousands grouping of a digit string (Python's `{:,}`). -/
def commaGroup (s : String) : String :=
  String.mk (((commaChunks (s.length + 1) s.data.reverse).intersperse [',']).flatten.reverse)

/-- A Python integer with thousands separators. -/
def fmtIntComma (n : Int) : String :=
  (if n < 0 then "-" else "") ++ commaGroup (toString n.natAbs)

/-- Coarse `str(x)` for the values that can reach `_fmt_num`'s fallback
branch (only non-floatable values do). -/
def pyStr : PyVal → String
  | .none => "None"
  | .num _ => "float"
  | .str s => s
  | .other => "object"

/-- `_fmt_num` (`app/core/learning.py:23`): `"N/A"` for `None`; a value
convertible to float is rendered as a grouped integer when integral and
as `{:,.4f}` otherwise; an unconvertible value falls back to `str(x)`. -/
def _fmt_num (x : PyVal) : String :=
  match x with
  | .none => "N/A"
  | _ =>
    match pyFloat x with
    | some (.fin q) =>
      if q.den = 1 then fmtIntComma q.num
      else
        let n : Int := round (q * 10000)
        let frac := toString (n.natAbs % 10000)
        (if n < 0 then "-" else "") ++ fmtIntComma ((n.natAbs / 10000 : Nat) : Int)
          ++ "." ++ String.mk (List.replicate (4 - frac.length) '0') ++ frac
    | some .nan => "nan"
    | some (.inf s) => if s then "inf" else "-inf"
    | Option.none => pyStr x

/-- A quiz question as built by `_make_question`. -/
structure Question where
  question : String
  options : List String
  correct_option_index : Nat
  explanation : String
deriving DecidableEq, Repr

/-- The Python `for new_i, (old_i, _) in enumerate(indexed): if old_i ==
correct_index: ... break` search: index of the first pair whose first
component is `correct_index` (the loop leaves 0 when there is none). -/
def findFirstFst (correct_index : Nat) : List (Nat × String) → Option Nat
  | [] => Option.none
  | p :: ps =>
    if p.fst = correct_index then some 0
    else (findFirstFst correct_index ps).map (· + 1)

/-- `_shuffle_options_keep_answer` (`app/core/learning.py:61`): shuffle
`list(enumerate(options))`, project the options back out, and re-locate
the original correct index (defaulting to 0 when not found). -/
def _shuffle_options_keep_answer (options : List String) (correct_index : Nat)
    (rng : PyRandom) : (List String × Nat) × PyRandom :=
  let (indexed, rng1) := pyShuffle options.enum rng
  ((indexed.map Prod.snd, (findFirstFst correct_index indexed).getD 0), rng1)

/-- `_make_question` (`app/core/learning.py:85`): shuffle the options
(when requested and there are at least two) and package the question. -/
def _make_question (question : String) (options : List String)
    (correct_option_index : Nat) (explanation : String) (rng : PyRandom)
    (shuffle : Bool) : Question × PyRandom :=
  if shuffle ∧ 2 ≤ options.length then
    let (r, rng1) := _shuffle_options_keep_answer options correct_option_index rng
    (⟨question, r.fst, r.snd, explanation⟩, rng1)
  else (⟨question, options, correct_option_index, explanation⟩, rng)

/-- The `company` sub-dictionary of an analysis record, as *consumed* by
the quiz generator: the seven fields used only through truthiness tests
and string interpolation are optional strings; the four fields fed to
presence tests / `_safe_float` are loosely typed. -/
structure CompanyD where
  short_name : Option String
  long_name : Option String
  sector : Option String
  industry : Option String
  exchange : Option String
  country : Option String
  currency : Option String
  market_cap : PyVal
  trailing_pe : PyVal
  dividend_yield : PyVal
  beta : PyVal
deriving DecidableEq, Repr

/-- `{}` — missing/empty company record. -/
def CompanyD.empty : CompanyD :=
  ⟨Option.none, Option.none, Option.none, Option.none, Option.none, Option.none,
   Option.none, .none, .none, .none, .none⟩

/-- The `price_metrics` sub-dictionary, restricted to the keys the quiz
generator reads; each value is loosely typed. -/
structure MetricsD where
  period_return_pct : PyVal
  annualized_volatility_pct : PyVal
  daily_volatility_pct : PyVal
  max_drawdown_pct : PyVal
  min_price : PyVal
  max_price : PyVal
deriving DecidableEq, Repr

/-- `{}` — missing/empty metrics record (every `get` returns `None`). -/
def MetricsD.empty : MetricsD := ⟨.none, .none, .none, .none, .none, .none⟩

/-- The analysis record as the quiz generator sees it; either
sub-dictionary may be absent (`analysis.get(...) or {}`). -/
structure PAnalysis where
  company : Option CompanyD
  price_metrics : Option MetricsD
deriving DecidableEq, Repr

/-- `{"Low": 0, "Moderate": 1, "High": 2}.get(vol_bucket, 1)`. -/
def volIdx (s : String) : Nat :=
  if s = "Low" then 0 else if s = "Moderate" then 1 else if s = "High" then 2 else 1

/-- `{"Large-cap": 0, "Mid-cap": 1, "Small-cap": 2, "Micro-cap": 3}.get(cap_bucket, 1)`. -/
def capIdx (s : String) : Nat :=
  if s = "Large-cap" then 0 else if s = "Mid-cap" then 1
  else if s = "Small-cap" then 2 else if s = "Micro-cap" then 3 else 1

/-- `min_price is not None and max_price is not None and min_price != max_price`
(Python float `!=`, under which `nan != nan`). -/
def rangeCond : Option PFloat → Option PFloat → Bool
  | some a, some b => pyNeF a b
  | _, _ => false

/-- Lift the result of `_safe_float` back into a dynamic value (for the
`_fmt_num` calls on already-coerced numbers). -/
def toPyVal : Option PFloat → PyVal
  | some f => .num f
  | Option.none => .none

/-- The question bank of `generate_quiz_and_flashcards`
(`app/core/learning.py:163`–366) as a list of (condition, builder) pairs
in source order.  A pair's builder runs — consuming the shared generator —
exactly when its condition holds, which is how the straight-line Python
`if field: bank.append(_make_question(...))` sequence executes. -/
def bankSpec (ticker : String) (analysis : PAnalysis) :
    List (Bool × (PyRandom → Question × PyRandom)) :=
  let company := analysis.company.getD CompanyD.empty
  let pm := analysis.price_metrics.getD MetricsD.empty
  let sector := company.sector
  let industry := company.industry
  let exchange := company.exchange
  let country := company.country
  let currency := company.currency
  let market_cap := _safe_float company.market_cap Option.none
  let trailing_pe := company.trailing_pe
  let dividend_yield := company.dividend_yield
  let beta := company.beta
  let period_return := pyOrF (_safe_float pm.period_return_pct (some (.fin 0))) (.fin 0)
  let ann_vol := _safe_float pm.annualized_volatility_pct Option.none
  let daily_vol := _safe_float pm.daily_volatility_pct Option.none
  let max_dd := _safe_float pm.max_drawdown_pct Option.none
  let min_price := _safe_float pm.min_price Option.none
  let max_price := _safe_float pm.max_price Option.none
  let directionIncreased := fge0 period_return
  let vol_bucket := _vol_bucket ann_vol
  let cap_bucket := _market_cap_bucket market_cap
  [ (truthyS sector, fun rng => _make_question
      ("Which sector is " ++ ticker ++ " primarily classified under?")
      [sector.getD "", "Technology", "Healthcare", "Financial Services"] 0
      ("Based on the company snapshot, " ++ ticker ++ " is listed under the "
        ++ sector.getD "" ++ " sector.") rng true),
    (truthyS exchange, fun rng => _make_question
      ("Where is " ++ ticker ++ " listed (exchange)?")
      [exchange.getD "", "NYSE", "NASDAQ", "AMEX"] 0
      ("The company snapshot lists the exchange as " ++ exchange.getD "" ++ ".") rng true),
    (truthyS country, fun rng => _make_question
      ("Which country is " ++ ticker ++ " associated with in the snapshot?")
      [country.getD "", "United States", "Canada", "United Kingdom"] 0
      ("The snapshot lists the country as " ++ country.getD "" ++ ".") rng true),
    (truthyS currency, fun rng => _make_question
      ("What currency is " ++ ticker ++ " quoted in (according to the snapshot)?")
      [currency.getD "", "USD", "EUR", "GBP"] 0
      ("The snapshot lists the trading currency as " ++ currency.getD "" ++ ".") rng true),
    (truthyS industry, fun rng => _make_question
      ("The industry for " ++ ticker ++ " is best described as:")
      [industry.getD "", "Banks", "Oil & Gas", "Utilities"] 0
      ("The snapshot lists the industry as " ++ industry.getD "" ++ ".") rng true),
    (true, fun rng => _make_question
      ("Over the selected period, the price of " ++ ticker ++ " has:")
      ["Increased in value", "Decreased in value", "Stayed exactly the same",
       "We do not know from the data"]
      (if directionIncreased then 0 else 1)
      ("The total period return is " ++ _fmt_pct (some period_return)
        ++ ". Positive means up; negative means down.") rng true),
    (ann_vol.isSome, fun rng => _make_question
      ("The annualized volatility for " ++ ticker ++ " is about "
        ++ _fmt_pct ann_vol ++ ". This is generally considered:")
      ["Low volatility", "Moderate volatility", "High volatility", "Guaranteed return"]
      (volIdx vol_bucket)
      ("Volatility measures how much price fluctuates. Higher volatility means larger swings—not guaranteed profit.")
      rng true),
    (max_dd.isSome, fun rng => _make_question
      ("If maximum drawdown is about " ++ _fmt_pct max_dd ++ ", what does it describe?")
      ["The worst peak-to-trough drop over the period", "The average daily price movement",
       "The annual return guaranteed every year", "The dividend yield paid each year"] 0
      ("Drawdown is the percentage fall from a previous high to a later low—useful for understanding downside risk.")
      rng true),
    (rangeCond min_price max_price, fun rng => _make_question
      ("What does the price range (" ++ _fmt_num (toPyVal min_price) ++ " to "
        ++ _fmt_num (toPyVal max_price) ++ ") tell you?")
      ["The lowest and highest prices observed in the selected period",
       "The guaranteed future trading range", "The company’s book value range",
       "The dividend range per share"] 0
      ("Min/Max prices are historical extremes over the chosen window; they do not guarantee future bounds.")
      rng true),
    (daily_vol.isSome, fun rng => _make_question
      ("Daily volatility is approximately " ++ _fmt_pct daily_vol
        ++ ". This is best interpreted as:")
      ["Typical day-to-day price movement magnitude (in percent terms)",
       "The company’s annual profit margin", "A guaranteed daily profit",
       "The maximum possible daily loss"] 0
      ("Daily volatility summarizes how much returns fluctuate day-to-day; it’s a risk/variability measure.")
      rng true),
    (market_cap.isSome, fun rng => _make_question
      ("Based on the market cap, " ++ ticker ++ " would typically be considered:")
      ["Large-cap", "Mid-cap", "Small-cap", "Micro-cap"]
      (capIdx cap_bucket)
      ("With market cap ~" ++ _fmt_num (toPyVal market_cap) ++ ", this fits "
        ++ cap_bucket ++ " (rule-of-thumb).") rng true),
    (trailing_pe ≠ .none, fun rng => _make_question
      ("What does the P/E ratio (Price/Earnings) represent?")
      ["Price per share divided by earnings per share",
       "Earnings per share divided by price per share",
       "Dividend per share divided by price per share",
       "Revenue divided by market cap"] 0
      ("P/E is a valuation ratio. (For " ++ ticker ++ ", trailing P/E is shown as "
        ++ _fmt_num trailing_pe ++ " when available.)") rng true),
    (dividend_yield ≠ .none, fun rng => _make_question
      ("Dividend yield is best described as:")
      ["Annual dividends per share divided by stock price",
       "Stock price divided by annual dividends per share",
       "Market cap divided by dividends paid", "Profit divided by market cap"] 0
      ("Dividend yield is the dividend return relative to price. (For " ++ ticker
        ++ ", dividend yield is shown as " ++ _fmt_num dividend_yield
        ++ " when available.)") rng true),
    (beta ≠ .none, fun rng => _make_question
      ("Beta (vs. the overall market) is best interpreted as:")
      ["How sensitive the stock is to broad market moves", "How many shares exist",
       "How much dividend is paid each quarter", "How many years the company has existed"] 0
      ("Beta is a relative risk measure vs. the market. (For " ++ ticker
        ++ ", beta is shown as " ++ _fmt_num beta ++ " when available.)") rng true) ]

/-- Execute one (condition, builder) pair of the bank construction. -/
def bankStep (acc : List Question × PyRandom)
    (s : Bool × (PyRandom → Question × PyRandom)) : List Question × PyRandom :=
  if s.fst then
    let (q, g1) := s.snd acc.snd
    (acc.fst ++ [q], g1)
  else acc

/-- The full question bank, with the generator state after building it. -/
def buildBank (ticker : String) (analysis : PAnalysis) (rng : PyRandom) :
    List Question × PyRandom :=
  (bankSpec ticker analysis).foldl bankStep ([], rng)

/-- `rng.shuffle(bank); quiz = bank[: max(1, min(num_questions, len(bank)))]`
(`app/core/learning.py:371`). -/
def selectQuiz (bank : List Question) (num_questions : Int) (rng : PyRandom) :
    List Question × PyRandom :=
  let (shuffled, rng1) := pyShuffle bank rng
  (shuffled.take (max 1 (min num_questions (bank.length : Int))).toNat, rng1)

/-- A flashcard. -/
structure Flashcard where
  front : String
  back : String
deriving DecidableEq, Repr

/-- The fixed flashcard deck (`app/core/learning.py:377`); the third
card's back interpolates the company display name. -/
def flashcardsFor (name : String) : List Flashcard :=
  [ ⟨"What is volatility?",
     "A measure of how much a stock\x27s price moves around. Higher volatility means larger, more frequent price swings."⟩,
    ⟨"What is maximum drawdown?",
     "The biggest drop from a previous peak to a later low over a period. It shows how severe a downturn could have been."⟩,
    ⟨"What does a positive period return mean?",
     "For " ++ name ++ ", a positive period return means the price increased over the chosen time window. A negative return means it decreased."⟩,
    ⟨"What is the P/E ratio (Price/Earnings)?",
     "The stock price divided by earnings per share. It is one way of describing how highly the market values the company\x27s earnings."⟩,
    ⟨"What is dividend yield?",
     "Annual dividends per share divided by the stock price. It indicates how much cash return you receive as dividends relative to the price."⟩,
    ⟨"What is market capitalization?",
     "The total value of all outstanding shares (share price × shares). It’s a common way to describe how large a company is in the market."⟩,
    ⟨"What is beta?",
     "A measure of how much a stock tends to move relative to the overall market. A beta above 1 means more sensitive; below 1 means less sensitive."⟩ ]

/-- The quiz/flashcard deck. -/
structure Deck where
  quiz : List Question
  flashcards : List Flashcard
deriving DecidableEq, Repr

/-- `generate_quiz_and_flashcards` (`app/core/learning.py:106`): seed a
fresh generator, build the section-aware question bank, shuffle it with
the same generator, truncate, and attach the static flashcards.
`user_level` is accepted and unused, exactly as in the source. -/
def generate_quiz_and_flashcards (ticker : String) (analysis : PAnalysis)
    (user_level : String) (num_questions : Int) (seed : Nat) : Deck :=
  let rng := PyRandom.init seed
  let company := analysis.company.getD CompanyD.empty
  let name := pyOrStr2 company.short_name company.long_name ticker
  let (bank, rng1) := buildBank ticker analysis rng
  let (quiz, _) := selectQuiz bank num_questions rng1
  ⟨quiz, flashcardsFor name⟩

/-- `f <= c` with Python float comparison (`nan <= c` is false). -/
def fleQ (c : ℚ) : PFloat → Bool
  | .nan => false
  | .inf s => !s
  | .fin q => decide (q ≤ c)

/-- The first two characters of a string (used to separate the fixed
literal prefixes of the different question texts). -/
def firstTwo (s : String) : List Char := s.data.take 2

/-! ## Helper lemmas: permutation facts about the shuffles -/

/-- Pulling the element at position `m` to the front while writing `x`
there is a permutation of consing `x`. -/
theorem cons_set_perm (x : α) : ∀ (t : List α) (m : Nat) (y : α),
    t[m]? = some y → (y :: t.set m x).Perm (x :: t)
  | [], m, y => by intro h; simp at h
  | c :: t', 0, y => by
    intro h
    rw [List.getElem?_cons_zero] at h
    injection h with h
    subst h
    rw [List.set_cons_zero]
    exact List.Perm.swap x c t'
  | c :: t', m + 1, y => by
    intro h
    rw [List.getElem?_cons_succ] at h
    rw [List.set_cons_succ]
    exact (List.Perm.swap c y (t'.set m x)).trans
      (((cons_set_perm x t' m y h).cons c).trans (List.Perm.swap x c t'))

/-- An in-bounds double `set` (the two halves of a swap) permutes the
list. -/
theorem set_set_perm : ∀ (l : List α) (a b : Nat) (x y : α),
    l[a]? = some x → l[b]? = some y → ((l.set a y).set b x).Perm l
  | [], _, _, _, _ => by intro ha _; simp at ha
  | c :: t, 0, 0, x, y => by
    intro ha hb
    rw [List.getElem?_cons_zero] at ha hb
    injection ha with ha; injection hb with hb
    subst ha; subst hb
    rw [List.set_cons_zero, List.set_cons_zero]
  | c :: t, 0, b + 1, x, y => by
    intro ha hb
    rw [List.getElem?_cons_zero] at ha
    rw [List.getElem?_cons_succ] at hb
    injection ha with ha
    subst ha
    rw [List.set_cons_zero, List.set_cons_succ]
    exact cons_set_perm c t b y hb
  | c :: t, a + 1, 0, x, y => by
    intro ha hb
    rw [List.getElem?_cons_succ] at ha
    rw [List.getElem?_cons_zero] at hb
    injection hb with hb
    subst hb
    rw [List.set_cons_succ, List.set_cons_zero]
    exact cons_set_perm c t a x ha
  | c :: t, a + 1, b + 1, x, y => by
    intro ha hb
    rw [List.getElem?_cons_succ] at ha hb
    rw [List.set_cons_succ, List.set_cons_succ]
    exact (set_set_perm t a b x y ha hb).cons c

/-- A `listSwap` is a permutation. -/
theorem listSwap_perm (l : List α) (a b : Nat) : (listSwap l a b).Perm l := by
  unfold listSwap
  split
  · next x y ha hb => exact set_set_perm l a b x y ha hb
  · exact List.Perm.refl l

/-- Every run of the Fisher–Yates loop is a permutation. -/
theorem shuffleSteps_perm : ∀ (n : Nat) (l : List α) (g : PyRandom),
    (shuffleSteps l g n).fst.Perm l
  | 0, l, _ => List.Perm.refl l
  | n + 1, l, g => by
    show (shuffleSteps (listSwap l (n + 1) (randbelow g (n + 2)).fst)
      (randbelow g (n + 2)).snd n).fst.Perm l
    exact (shuffleSteps_perm n _ _).trans (listSwap_perm l (n + 1) _)

/-- `rng.shuffle` permutes its input, for every generator state. -/
theorem pyShuffle_perm (l : List α) (g : PyRandom) : (pyShuffle l g).fst.Perm l :=
  shuffleSteps_perm (l.length - 1) l g

/-- `rng.shuffle` preserves the length. -/
theorem pyShuffle_length (l : List α) (g : PyRandom) :
    (pyShuffle l g).fst.length = l.length :=
  (pyShuffle_perm l g).length_eq

/-- When `(ci, v)` occurs in a list with pairwise-distinct first
components, the re-location loop finds it: it returns an index that holds
exactly `(ci, v)`. -/
theorem findFirstFst_spec : ∀ (l : List (Nat × String)) (ci : Nat) (v : String),
    (ci, v) ∈ l → (l.map Prod.fst).Nodup →
    ∃ i, findFirstFst ci l = some i ∧ l[i]? = some (ci, v)
  | [], _, _ => by intro h; simp at h
  | p :: ps, ci, v => by
    intro hmem hnd
    rw [List.map_cons, List.nodup_cons] at hnd
    obtain ⟨hnotin, hndtl⟩ := hnd
    by_cases hp : p.fst = ci
    · refine ⟨0, ?_, ?_⟩
      · simp [findFirstFst, hp]
      · rw [List.getElem?_cons_zero]
        rcases List.mem_cons.mp hmem with he | htl
        · rw [he]
        · exfalso
          apply hnotin
          rw [hp]
          exact List.mem_map.mpr ⟨(ci, v), htl, rfl⟩
    · have htl : (ci, v) ∈ ps := by
        rcases List.mem_cons.mp hmem with he | htl
        · exfalso; apply hp; rw [← he]
        · exact htl
      obtain ⟨i, hfind, hget⟩ := findFirstFst_spec ps ci v htl hndtl
      refine ⟨i + 1, ?_, ?_⟩
      · simp [findFirstFst, hp, hfind]
      · rw [List.getElem?_cons_succ]; exact hget

/-- Core resynchronisation property of `_shuffle_options_keep_answer`:
for a valid pre-shuffle index and **any** generator state, the re-located
index is in bounds and the option it points at is the pre-shuffle correct
option. -/
theorem shuffle_options_spec (options : List String) (ci : Nat) (g : PyRandom)
    (h : ci < options.length) :
    (_shuffle_options_keep_answer options ci g).fst.snd
        < (_shuffle_options_keep_answer options ci g).fst.fst.length ∧
      (_shuffle_options_keep_answer options ci g).fst.fst[
        (_shuffle_options_keep_answer options ci g).fst.snd]? = options[ci]? := by
  obtain ⟨v, hv⟩ : ∃ v, options[ci]? = some v :=
    ⟨options[ci], List.getElem?_eq_some.mpr ⟨h, rfl⟩⟩
  have hperm : (pyShuffle options.enum g).fst.Perm options.enum :=
    pyShuffle_perm options.enum g
  have hmem : (ci, v) ∈ (pyShuffle options.enum g).fst :=
    hperm.mem_iff.mpr (List.mk_mem_enum_iff_getElem?.mpr hv)
  have hnd : ((pyShuffle options.enum g).fst.map Prod.fst).Nodup :=
    ((hperm.map Prod.fst).symm).nodup (List.nodup_enum_map_fst options)
  obtain ⟨i, hfind, hget⟩ := findFirstFst_spec _ ci v hmem hnd
  have hilt : i < (pyShuffle options.enum g).fst.length :=
    (List.getElem?_eq_some.mp hget).1
  constructor
  · show ((findFirstFst ci (pyShuffle options.enum g).fst).getD 0)
      < ((pyShuffle options.enum g).fst.map Prod.snd).length
    rw [hfind, Option.getD_some, List.length_map]
    exact hilt
  · show ((pyShuffle options.enum g).fst.map Prod.snd)[
      (findFirstFst ci (pyShuffle options.enum g).fst).getD 0]? = options[ci]?
    rw [hfind, Option.getD_some, List.getElem?_map, hget, hv]
    rfl

/-- `_make_question` behaviour on a valid index: the text and explanation
pass through, and the (possibly re-located) correct index stays in bounds
and still points at the pre-shuffle correct option. -/
theorem make_question_spec (t : String) (opts : List String) (ci : Nat)
    (e : String) (g : PyRandom) (sh : Bool) (h : ci < opts.length) :
    ((_make_question t opts ci e g sh).fst.question = t
      ∧ (_make_question t opts ci e g sh).fst.explanation = e)
    ∧ (_make_question t opts ci e g sh).fst.correct_option_index
        < (_make_question t opts ci e g sh).fst.options.length
    ∧ (_make_question t opts ci e g sh).fst.options[
        (_make_question t opts ci e g sh).fst.correct_option_index]? = opts[ci]? := by
  unfold _make_question
  split
  · have hs := shuffle_options_spec opts ci g h
    exact ⟨⟨rfl, rfl⟩, hs.1, hs.2⟩
  · exact ⟨⟨rfl, rfl⟩, h, rfl⟩

/-- The question text of a `_make_question` result is its first argument,
shuffled or not. -/
theorem make_question_question (t : String) (opts : List String) (ci : Nat)
    (e : String) (g : PyRandom) (sh : Bool) :
    (_make_question t opts ci e g sh).fst.question = t := by
  unfold _make_question
  split
  · rfl
  · rfl

/-- One bank step can only extend the accumulated list. -/
theorem mem_bankStep (acc : List Question × PyRandom)
    (s : Bool × (PyRandom → Question × PyRandom)) (q : Question)
    (h : q ∈ acc.fst) : q ∈ (bankStep acc s).fst := by
  unfold bankStep
  split
  · exact List.mem_append_left _ h
  · exact h

/-- One bank step never shortens the accumulated list. -/
theorem bankStep_len (acc : List Question × PyRandom)
    (s : Bool × (PyRandom → Question × PyRandom)) :
    acc.fst.length ≤ (bankStep acc s).fst.length := by
  unfold bankStep
  split
  · show acc.fst.length ≤ (acc.fst ++ [(s.snd acc.snd).fst]).length
    rw [List.length_append]
    omega
  · exact le_refl _

/-- Accumulated questions survive the rest of the bank construction. -/
theorem bank_foldl_mem : ∀ (specs : List (Bool × (PyRandom → Question × PyRandom)))
    (acc : List Question × PyRandom) (q : Question), q ∈ acc.fst →
    q ∈ (specs.foldl bankStep acc).fst
  | [], _, _ => fun h => h
  | s :: ss, acc, q => fun h => bank_foldl_mem ss (bankStep acc s) q (mem_bankStep acc s q h)

/-- The bank construction never shortens the accumulated list. -/
theorem bank_foldl_len : ∀ (specs : List (Bool × (PyRandom → Question × PyRandom)))
    (acc : List Question × PyRandom),
    acc.fst.length ≤ (specs.foldl bankStep acc).fst.length
  | [], _ => le_refl _
  | s :: ss, acc => le_trans (bankStep_len acc s) (bank_foldl_len ss (bankStep acc s))

/-- A property holding of every enabled builder's output (for every
generator state) and of the accumulator holds of every question in the
finished bank. -/
theorem bank_foldl_all (P : Question → Prop) :
    ∀ (specs : List (Bool × (PyRandom → Question × PyRandom)))
    (acc : List Question × PyRandom),
    (∀ s ∈ specs, s.fst = true → ∀ g, P (s.snd g).fst) → (∀ q ∈ acc.fst, P q) →
    ∀ q ∈ (specs.foldl bankStep acc).fst, P q
  | [], _ => fun _ hacc => hacc
  | s :: ss, acc => by
    intro hspec hacc
    rw [List.foldl_cons]
    apply bank_foldl_all P ss (bankStep acc s)
      (fun s' hs' => hspec s' (List.mem_cons_of_mem _ hs'))
    intro q hq
    unfold bankStep at hq
    split at hq
    · next hcond =>
      replace hq : q ∈ acc.fst ++ [(s.snd acc.snd).fst] := hq
      rcases List.mem_append.mp hq with h1 | h2
      · exact hacc q h1
      · rw [List.mem_singleton.mp h2]
        exact hspec s (List.mem_cons_self s ss) hcond acc.snd
    · exact hacc q hq

/-- The selection step keeps at least one question of a non-empty bank. -/
theorem selectQuiz_len_pos (bank : List Question) (k : Int) (g : PyRandom)
    (h : bank ≠ []) : 1 ≤ (selectQuiz bank k g).fst.length := by
  show 1 ≤ ((pyShuffle bank g).fst.take (max 1 (min k (bank.length : Int))).toNat).length
  rw [List.length_take, pyShuffle_length]
  have hb : 1 ≤ bank.length := List.length_pos.mpr h
  omega

/-! ## Helper lemmas: metrics -/

/-- A left fold of `min` never exceeds its initial value. -/
theorem foldl_min_le_init : ∀ (l : List ℚ) (a : ℚ), l.foldl min a ≤ a
  | [], a => le_refl a
  | x :: xs, a => le_trans (foldl_min_le_init xs (min a x)) (min_le_left a x)

/-- A left fold of `max` is at least its initial value. -/
theorem init_le_foldl_max : ∀ (l : List ℚ) (a : ℚ), a ≤ l.foldl max a
  | [], a => le_refl a
  | x :: xs, a => le_trans (le_max_left a x) (init_le_foldl_max xs (max a x))

/-- A left fold of `min` is a lower bound of the list members. -/
theorem foldl_min_le_mem : ∀ (l : List ℚ) (a x : ℚ), x ∈ l → l.foldl min a ≤ x
  | [], _, x => by intro h; exact absurd h (List.not_mem_nil x)
  | y :: ys, a, x => by
    intro h
    rcases List.mem_cons.mp h with he | htl
    · subst he
      exact le_trans (foldl_min_le_init ys (min a x)) (min_le_right a x)
    · exact foldl_min_le_mem ys (min a y) x htl

/-- A left fold of `max` is an upper bound of the list members. -/
theorem mem_le_foldl_max : ∀ (l : List ℚ) (a x : ℚ), x ∈ l → x ≤ l.foldl max a
  | [], _, x => by intro h; exact absurd h (List.not_mem_nil x)
  | y :: ys, a, x => by
    intro h
    rcases List.mem_cons.mp h with he | htl
    · subst he
      exact le_trans (le_max_right a x) (init_le_foldl_max ys (max a x))
    · exact mem_le_foldl_max ys (max a y) x htl

/-- Every drawdown over a positive carried running maximum is a
non-positive finite float. -/
theorem drawdowns_from_spec : ∀ (l : List ℚ) (m : ℚ), 0 < m →
    ∀ f ∈ (l.zip (cummaxFrom m l)).map (fun p => fdiv (p.fst - p.snd) p.snd),
      ∃ q, q ≤ 0 ∧ f = .fin q
  | [], _, _ => by intro f h; simp [cummaxFrom] at h
  | c :: cs, m, hm => by
    intro f hf
    rw [show cummaxFrom m (c :: cs) = max m c :: cummaxFrom (max m c) cs from rfl,
      List.zip_cons_cons, List.map_cons] at hf
    have hmc : 0 < max m c := lt_of_lt_of_le hm (le_max_left m c)
    rcases List.mem_cons.mp hf with he | htl
    · refine ⟨(c - max m c) / max m c, ?_, ?_⟩
      · exact div_nonpos_iff.mpr (Or.inr ⟨sub_nonpos.mpr (le_max_right m c), le_of_lt hmc⟩)
      · rw [he]
        unfold fdiv
        rw [if_neg (ne_of_gt hmc)]
    · exact drawdowns_from_spec cs (max m c) hmc f htl

/-- On a series whose first price is positive, every drawdown is a
non-positive finite float. -/
theorem drawdowns_spec (c0 : ℚ) (rest : List ℚ) (h : 0 < c0) :
    ∀ f ∈ drawdowns (c0 :: rest), ∃ q, q ≤ 0 ∧ f = .fin q := by
  intro f hf
  rw [show drawdowns (c0 :: rest)
      = fdiv (c0 - c0) c0
        :: (rest.zip (cummaxFrom c0 rest)).map (fun p => fdiv (p.fst - p.snd) p.snd)
      from rfl] at hf
  rcases List.mem_cons.mp hf with he | htl
  · refine ⟨0, le_refl 0, ?_⟩
    rw [he]
    unfold fdiv
    rw [if_neg (ne_of_gt h), sub_self, zero_div]
  · exact drawdowns_from_spec rest c0 h f htl

/-- Folding `fmin2` from a non-positive finite float over non-positive
finite floats stays a non-positive finite float. -/
theorem foldl_fmin2_fin : ∀ (t : List PFloat) (a : ℚ), a ≤ 0 →
    (∀ f ∈ t, ∃ q, q ≤ 0 ∧ f = .fin q) →
    ∃ q, q ≤ 0 ∧ t.foldl fmin2 (.fin a) = .fin q
  | [], a, ha, _ => ⟨a, ha, rfl⟩
  | f :: fs, a, ha, hall => by
    obtain ⟨qh, hqh, hfh⟩ := hall f (List.mem_cons_self f fs)
    subst hfh
    rw [List.foldl_cons]
    unfold fmin2
    by_cases hle : fleB (.fin a) (.fin qh) = true
    · rw [if_pos hle]
      exact foldl_fmin2_fin fs a ha (fun f hf => hall f (List.mem_cons_of_mem _ hf))
    · rw [if_neg hle]
      exact foldl_fmin2_fin fs qh hqh (fun f hf => hall f (List.mem_cons_of_mem _ hf))

/-- The skip-`nan` minimum of the drawdowns of a series with positive
first price is a non-positive finite float. -/
theorem fminSkipna_drawdowns (c0 : ℚ) (rest : List ℚ) (h : 0 < c0) :
    ∃ q, q ≤ 0 ∧ fminSkipna (drawdowns (c0 :: rest)) = .fin q := by
  have hall := drawdowns_spec c0 rest h
  have hfil : (drawdowns (c0 :: rest)).filter (fun f => f ≠ PFloat.nan)
      = drawdowns (c0 :: rest) := by
    apply List.filter_eq_self.mpr
    intro f hf
    obtain ⟨q, _, hq⟩ := hall f hf
    subst hq
    simp
  have hd : drawdowns (c0 :: rest)
      = fdiv (c0 - c0) c0
        :: (rest.zip (cummaxFrom c0 rest)).map (fun p => fdiv (p.fst - p.snd) p.snd) := rfl
  have hhead : fdiv (c0 - c0) c0 = PFloat.fin 0 := by
    unfold fdiv
    rw [if_neg (ne_of_gt h), sub_self, zero_div]
  unfold fminSkipna
  rw [hfil, hd, hhead]
  exact foldl_fmin2_fin _ 0 (le_refl 0)
    (fun f hf => drawdowns_from_spec rest c0 h f hf)

/-- `fin` values always survive a `dropna`-style filter. -/
theorem decide_fin_ne_nan (q : ℚ) : (!decide (PFloat.fin q = PFloat.nan)) = true := rfl

/-! ## Claim theorems -/

/-- **C1** (confirmed).  For every quiz question with a valid pre-shuffle
`correct_option_index` and every generator state (hence every seed), the
option shuffle preserves the correct answer: the re-located index is still
in bounds (being a `Nat`, it is also `≥ 0`) and the option it selects is
the pre-shuffle correct option's text. -/
theorem C1_shuffle_preserves_answer (options : List String) (correct_index : Nat)
    (g : PyRandom) (h : correct_index < options.length) :
    (_shuffle_options_keep_answer options correct_index g).fst.snd
        < (_shuffle_options_keep_answer options correct_index g).fst.fst.length
    ∧ (_shuffle_options_keep_answer options correct_index g).fst.fst[
        (_shuffle_options_keep_answer options correct_index g).fst.snd]?
      = options[correct_index]? :=
  shuffle_options_spec options correct_index g h

/-- Witness for C1 at a concrete input. -/
theorem C1_witness :
    (1 : Nat) < (["Technology", "Healthcare", "Energy", "Utilities"] : List String).length
    ∧ ((_shuffle_options_keep_answer ["Technology", "Healthcare", "Energy", "Utilities"]
          1 (PyRandom.init 7)).fst.snd
        < (_shuffle_options_keep_answer ["Technology", "Healthcare", "Energy", "Utilities"]
          1 (PyRandom.init 7)).fst.fst.length
      ∧ (_shuffle_options_keep_answer ["Technology", "Healthcare", "Energy", "Utilities"]
          1 (PyRandom.init 7)).fst.fst[
          (_shuffle_options_keep_answer ["Technology", "Healthcare", "Energy", "Utilities"]
            1 (PyRandom.init 7)).fst.snd]?
        = (["Technology", "Healthcare", "Energy", "Utilities"] : List String)[1]?) :=
  ⟨by decide,
   C1_shuffle_preserves_answer ["Technology", "Healthcare", "Energy", "Utilities"] 1
     (PyRandom.init 7) (by decide)⟩

/-- **C3** (corrected).  For a single-point close series the returns are
empty, and the volatility and mean-return fields are `nan` — **not** the
`0.0` the claim states — while `last/start/min/max` still report the
single point. -/
theorem C3_short_series_nan (c : ℚ) :
    compute_price_metrics ⟨[("Close", [c])]⟩ = .ok (metricsOf c [])
    ∧ (metricsOf c []).daily_volatility_pct = .nan
    ∧ (metricsOf c []).annualized_volatility_pct = .nan
    ∧ (metricsOf c []).mean_daily_return_pct = .nan
    ∧ (metricsOf c []).last_price = c
    ∧ (metricsOf c []).start_price = c
    ∧ (metricsOf c []).min_price = c
    ∧ (metricsOf c []).max_price = c :=
  ⟨rfl, rfl, rfl, rfl, rfl, rfl, rfl, rfl⟩

/-- Counterexample to C3 as stated: on the one-point series `[100]` the
volatility/mean fields are `nan`, not the claimed finite `0.0`. -/
theorem C3_counterexample :
    Except.map Metrics.daily_volatility_pct (compute_price_metrics ⟨[("Close", [100])]⟩)
      = Except.ok PFloat.nan
    ∧ Except.map Metrics.annualized_volatility_pct (compute_price_metrics ⟨[("Close", [100])]⟩)
      = Except.ok PFloat.nan
    ∧ Except.map Metrics.mean_daily_return_pct (compute_price_metrics ⟨[("Close", [100])]⟩)
      = Except.ok PFloat.nan
    ∧ PFloat.nan ≠ PFloat.fin 0 :=
  ⟨rfl, rfl, rfl, by decide⟩

/-- **C5** (corrected).  When no column is labelled exactly `"Close"`,
`compute_price_metrics` fails — but with a pandas `KeyError("Close")`
naming only the missing key; the repository has no `DataFormatError` and
nothing lists the available columns. -/
theorem C5_missing_close_keyerror (df : DataFrame)
    (h : ∀ c ∈ df.cols, c.fst ≠ "Close") :
    compute_price_metrics df = .error (.keyError "Close") := by
  unfold compute_price_metrics DataFrame.getCol
  rw [List.find?_eq_none.mpr (fun c hc => by simpa using h c hc)]

/-- Witness for C5 at a concrete frame. -/
theorem C5_witness :
    (∀ c ∈ (⟨[("Open", [1]), ("High", [1]), ("Low", [1])]⟩ : DataFrame).cols,
      c.fst ≠ "Close")
    ∧ compute_price_metrics ⟨[("Open", [1]), ("High", [1]), ("Low", [1])]⟩
      = .error (.keyError "Close") :=
  ⟨by decide, C5_missing_close_keyerror _ (by decide)⟩

/-- Counterexample to C5 as stated: on columns `Open/High/Low` the failure
is `KeyError("Close")`, which is not a `DataFormatError` and whose message
does not list the three available column names. -/
theorem C5_counterexample :
    compute_price_metrics ⟨[("Open", [1]), ("High", [2]), ("Low", [1/2])]⟩
      = .error (.keyError "Close")
    ∧ PyErr.keyError "Close" ≠ PyErr.dataFormatError "Open, High, Low" :=
  ⟨rfl, by decide⟩

/-- **C6** (corrected).  On every close series whose *first* price is
positive (which rules out the division-by-zero drawdowns of the
counterexample), the metrics satisfy the claimed range invariants and the
maximum drawdown is a non-positive finite number. -/
theorem C6_metrics_invariants (c0 : ℚ) (rest : List ℚ) (h : 0 < c0) :
    compute_price_metrics ⟨[("Close", c0 :: rest)]⟩ = .ok (metricsOf c0 rest)
    ∧ (metricsOf c0 rest).min_price ≤ (metricsOf c0 rest).start_price
    ∧ (metricsOf c0 rest).start_price ≤ (metricsOf c0 rest).max_price
    ∧ (metricsOf c0 rest).min_price ≤ (metricsOf c0 rest).last_price
    ∧ (metricsOf c0 rest).last_price ≤ (metricsOf c0 rest).max_price
    ∧ ∃ q, q ≤ 0 ∧ (metricsOf c0 rest).max_drawdown_pct = .fin q := by
  have hlast : rest.getLastD c0 ∈ c0 :: rest := List.getLastD_mem_cons rest c0
  refine ⟨rfl, ?_, ?_, ?_, ?_, ?_⟩
  · show rest.foldl min c0 ≤ c0
    exact foldl_min_le_init rest c0
  · show c0 ≤ rest.foldl max c0
    exact init_le_foldl_max rest c0
  · show rest.foldl min c0 ≤ rest.getLastD c0
    rcases List.mem_cons.mp hlast with he | htl
    · rw [he]; exact foldl_min_le_init rest c0
    · exact foldl_min_le_mem rest c0 _ htl
  · show rest.getLastD c0 ≤ rest.foldl max c0
    rcases List.mem_cons.mp hlast with he | htl
    · rw [he]; exact init_le_foldl_max rest c0
    · exact mem_le_foldl_max rest c0 _ htl
  · show ∃ q, q ≤ 0 ∧ fscale 100 (fminSkipna (drawdowns (c0 :: rest))) = .fin q
    obtain ⟨q, hq, hmin⟩ := fminSkipna_drawdowns c0 rest h
    refine ⟨q * 100, ?_, ?_⟩
    · exact mul_nonpos_iff.mpr (Or.inr ⟨hq, by norm_num⟩)
    · rw [hmin]
      rfl

/-- Witness for C6 at a concrete series. -/
theorem C6_witness :
    (0 : ℚ) < 100
    ∧ ((metricsOf 100 [110, 99, 121]).min_price ≤ (metricsOf 100 [110, 99, 121]).start_price
      ∧ (metricsOf 100 [110, 99, 121]).start_price ≤ (metricsOf 100 [110, 99, 121]).max_price
      ∧ (metricsOf 100 [110, 99, 121]).min_price ≤ (metricsOf 100 [110, 99, 121]).last_price
      ∧ (metricsOf 100 [110, 99, 121]).last_price ≤ (metricsOf 100 [110, 99, 121]).max_price
      ∧ ∃ q, q ≤ 0 ∧ (metricsOf 100 [110, 99, 121]).max_drawdown_pct = .fin q) :=
  ⟨by norm_num, ((C6_metrics_invariants 100 [110, 99, 121] (by norm_num)).2)⟩

/-- Counterexample to C6 as stated: on the all-zero series `[0, 0]` the
drawdowns are all `0/0 = nan`, so `max_drawdown_pct` is `nan`, and under
Python float comparison `nan <= 0` is false — the claimed invariant fails. -/
theorem C6_counterexample :
    Except.map Metrics.max_drawdown_pct (compute_price_metrics ⟨[("Close", [0, 0])]⟩)
      = Except.ok PFloat.nan
    ∧ fleQ 0 PFloat.nan = false := by
  refine ⟨?_, rfl⟩
  have h : compute_price_metrics ⟨[("Close", [(0 : ℚ), 0])]⟩ = .ok (metricsOf 0 [0]) := rfl
  rw [h]
  show Except.ok (metricsOf 0 [0]).max_drawdown_pct = Except.ok PFloat.nan
  have h2 : (metricsOf 0 [0]).max_drawdown_pct
      = fscale 100 (fminSkipna (drawdowns [0, 0])) := rfl
  rw [h2]
  norm_num [drawdowns, cummax, cummaxFrom, max_def, fdiv, fminSkipna, fscale,
    List.zip, List.zipWith, List.filter]

/-- **C7** (confirmed).  The worked example of the specification, on the
series `[100, 110, 99, 121]`. -/
theorem C7_example_series :
    compute_price_metrics ⟨[("Close", [100, 110, 99, 121])]⟩
      = .ok (metricsOf 100 [110, 99, 121])
    ∧ (metricsOf 100 [110, 99, 121]).period_return_pct = .fin 21
    ∧ (metricsOf 100 [110, 99, 121]).max_price = 121
    ∧ (metricsOf 100 [110, 99, 121]).min_price = 99
    ∧ (metricsOf 100 [110, 99, 121]).max_drawdown_pct = .fin (-10)
    ∧ cummax [100, 110, 99, 121] = [100, 110, 110, 121]
    ∧ drawdowns [100, 110, 99, 121] = [.fin 0, .fin 0, .fin (-(1/10)), .fin 0] := by
  refine ⟨rfl, ?_, ?_, ?_, ?_, ?_, ?_⟩
  · show fscale 100 (fsub1 (fdiv (([110, 99, 121] : List ℚ).getLastD 100) 100)) = .fin 21
    norm_num [fscale, fsub1, fdiv, List.getLastD, List.getLast?, List.getLast]
  · show ([110, 99, 121] : List ℚ).foldl max 100 = 121
    norm_num [List.foldl, max_def]
  · show ([110, 99, 121] : List ℚ).foldl min 100 = 99
    norm_num [List.foldl, min_def]
  · show fscale 100 (fminSkipna (drawdowns [100, 110, 99, 121])) = .fin (-10)
    norm_num [drawdowns, cummax, cummaxFrom, max_def, fdiv, fminSkipna, fscale,
      fmin2, fleB, List.zip, List.zipWith, List.filter, decide_fin_ne_nan]
  · norm_num [cummax, cummaxFrom, max_def]
  · norm_num [drawdowns, cummax, cummaxFrom, max_def, fdiv, List.zip, List.zipWith]

/-- **C4** (corrected).  When price retrieval and metrics succeed:
an *exception* from the fundamentals provider propagates out of
`analyze_ticker` (there is no recovery — the first conjunct), while a
provider that merely returns no record (`t.info` falsy) degrades to a
snapshot whose every field except `ticker` is absent, with the price
metrics unaffected (the remaining conjuncts). -/
theorem C4_fundamentals_failure (ticker period interval now : String)
    (fetch : Except PyErr DataFrame) (df : DataFrame) (m : Metrics) (e : PyErr)
    (hfetch : get_price_history (pyUpper ticker) fetch = .ok df)
    (hm : compute_price_metrics df = .ok m) :
    analyze_ticker ticker period interval fetch (.error e) now = .error e
    ∧ analyze_ticker ticker period interval fetch (.ok Option.none) now
      = .ok { ticker := pyUpper ticker, as_of := now, period := period,
              interval := interval,
              company := snapshotOf (pyUpper ticker) InfoDict.empty, price_metrics := m }
    ∧ (snapshotOf (pyUpper ticker) InfoDict.empty).short_name = .none
    ∧ (snapshotOf (pyUpper ticker) InfoDict.empty).long_name = .none
    ∧ (snapshotOf (pyUpper ticker) InfoDict.empty).sector = .none
    ∧ (snapshotOf (pyUpper ticker) InfoDict.empty).industry = .none
    ∧ (snapshotOf (pyUpper ticker) InfoDict.empty).market_cap = .none
    ∧ (snapshotOf (pyUpper ticker) InfoDict.empty).trailing_pe = .none
    ∧ (snapshotOf (pyUpper ticker) InfoDict.empty).forward_pe = .none
    ∧ (snapshotOf (pyUpper ticker) InfoDict.empty).dividend_yield = .none
    ∧ (snapshotOf (pyUpper ticker) InfoDict.empty).beta = .none
    ∧ (snapshotOf (pyUpper ticker) InfoDict.empty).currency = .none
    ∧ (snapshotOf (pyUpper ticker) InfoDict.empty).exchange = .none
    ∧ (snapshotOf (pyUpper ticker) InfoDict.empty).country = .none := by
  refine ⟨?_, ?_, rfl, rfl, rfl, rfl, rfl, rfl, rfl, rfl, rfl, rfl, rfl, rfl⟩
  · simp only [analyze_ticker, get_company_snapshot, hfetch, hm]
  · simp only [analyze_ticker, get_company_snapshot, hfetch, hm]
    rfl

/-- Witness for C4 at a concrete input. -/
theorem C4_witness :
    get_price_history (pyUpper "msft") (.ok ⟨[("Close", [50, 55])]⟩)
      = .ok ⟨[("Close", [50, 55])]⟩
    ∧ compute_price_metrics ⟨[("Close", [50, 55])]⟩ = .ok (metricsOf 50 [55])
    ∧ analyze_ticker "msft" "1y" "1d" (.ok ⟨[("Close", [50, 55])]⟩)
        (.ok Option.none) "2026-10-12T00:00:00Z"
      = .ok { ticker := pyUpper "msft", as_of := "2026-10-12T00:00:00Z", period := "1y",
              interval := "1d", company := snapshotOf (pyUpper "msft") InfoDict.empty,
              price_metrics := metricsOf 50 [55] } :=
  ⟨rfl, rfl,
   (C4_fundamentals_failure "msft" "1y" "1d" "2026-10-12T00:00:00Z"
     (.ok ⟨[("Close", [50, 55])]⟩) ⟨[("Close", [50, 55])]⟩ (metricsOf 50 [55])
     PyErr.indexError rfl rfl).2.1⟩

/-- Counterexample to C4 as stated: with price data present and metrics
computable, a fundamentals retrieval that *raises* makes `analyze_ticker`
fail — the pipeline does not degrade to an all-absent snapshot. -/
theorem C4_counterexample :
    analyze_ticker "aapl" "1y" "1d" (.ok ⟨[("Close", [100, 110])]⟩)
        (.error (.providerError "fundamentals fetch failed")) "2026-10-12T00:00:00Z"
      = .error (.providerError "fundamentals fetch failed")
    ∧ (get_price_history (pyUpper "aapl") (.ok ⟨[("Close", [100, 110])]⟩)).isOk = true
    ∧ (compute_price_metrics ⟨[("Close", [100, 110])]⟩).isOk = true :=
  ⟨rfl, rfl, rfl⟩

/-- **C2** (confirmed).  Quiz generation is deterministic in the
normalized request key: whenever two requests agree after trimming (and
upper-casing the ticker), the derived seeds — SHA-256 of
`ticker|period|interval|user_level`, first 8 hex digits parsed as a
(non-negative, being a `Nat`) integer — coincide, and with the same
analysis record the generated decks (question order, option order,
correct-answer indices, flashcards) are identical. -/
theorem C2_seed_determinism (t1 p1 i1 u1 t2 p2 i2 u2 : String)
    (ht : pyUpper (pyStrip t1) = pyUpper (pyStrip t2)) (hp : pyStrip p1 = pyStrip p2)
    (hi : pyStrip i1 = pyStrip i2) (hu : pyStrip u1 = pyStrip u2) :
    stable_seed t1 p1 i1 u1 = stable_seed t2 p2 i2 u2
    ∧ ∀ (ticker : String) (analysis : PAnalysis) (user_level : String) (k : Int),
      generate_quiz_and_flashcards ticker analysis user_level k (stable_seed t1 p1 i1 u1)
        = generate_quiz_and_flashcards ticker analysis user_level k
            (stable_seed t2 p2 i2 u2) := by
  have hseed : stable_seed t1 p1 i1 u1 = stable_seed t2 p2 i2 u2 := by
    unfold stable_seed
    rw [ht, hp, hi, hu]
  exact ⟨hseed, fun ticker analysis user_level k => by rw [hseed]⟩

/-- Witness for C2: a request differing only in whitespace and ticker
case derives the same seed and the same deck. -/
theorem C2_witness :
    stable_seed "  aapl " " 1y" "1d " " Beginner " = stable_seed "AAPL" "1y" "1d" "Beginner"
    ∧ generate_quiz_and_flashcards "AAPL" ⟨Option.none, Option.none⟩ "Beginner" 5
        (stable_seed "  aapl " " 1y" "1d " " Beginner ")
      = generate_quiz_and_flashcards "AAPL" ⟨Option.none, Option.none⟩ "Beginner" 5
        (stable_seed "AAPL" "1y" "1d" "Beginner") :=
  ⟨(C2_seed_determinism "  aapl " " 1y" "1d " " Beginner " "AAPL" "1y" "1d" "Beginner"
      (by decide) (by decide) (by decide) (by decide)).1,
   (C2_seed_determinism "  aapl " " 1y" "1d " " Beginner " "AAPL" "1y" "1d" "Beginner"
      (by decide) (by decide) (by decide) (by decide)).2 "AAPL"
     ⟨Option.none, Option.none⟩ "Beginner" 5⟩

/-- **C8** (confirmed).  The final quiz is the prefix of the shuffled
bank of length `max 1 (min k b)` (truncated by the bank size `b`): when
`min k b ≥ 1` that is exactly `min k b` questions; a non-empty bank always
yields at least one question, even for `k ≤ 0`; and an empty bank yields
an empty quiz without any error. -/
theorem C8_selection_size (bank : List Question) (k : Int) (g : PyRandom) :
    (selectQuiz bank k g).fst
      = (pyShuffle bank g).fst.take (max 1 (min k (bank.length : Int))).toNat
    ∧ (pyShuffle bank g).fst.length = bank.length
    ∧ (1 ≤ min k (bank.length : Int) →
        ((selectQuiz bank k g).fst).length = (min k (bank.length : Int)).toNat)
    ∧ (bank ≠ [] → 1 ≤ ((selectQuiz bank k g).fst).length)
    ∧ (bank = [] → (selectQuiz bank k g).fst = []) := by
  refine ⟨rfl, pyShuffle_length bank g, ?_, ?_, ?_⟩
  · intro hk
    show ((pyShuffle bank g).fst.take (max 1 (min k (bank.length : Int))).toNat).length
      = (min k (bank.length : Int)).toNat
    rw [List.length_take, pyShuffle_length]
    omega
  · intro hne
    exact selectQuiz_len_pos bank k g hne
  · intro hnil
    subst hnil
    show ((pyShuffle ([] : List Question) g).fst.take
      (max 1 (min k ((([] : List Question)).length : Int))).toNat) = []
    rw [show (pyShuffle ([] : List Question) g).fst = [] from rfl, List.take_nil]

/-- Witness for C8: the conditional parts at concrete banks. -/
theorem C8_witness :
    (1 : Int) ≤ min 5 ((([⟨"q1", ["a", "b"], 0, "e1"⟩,
        ⟨"q2", ["c", "d"], 1, "e2"⟩] : List Question)).length : Int)
    ∧ ((selectQuiz [⟨"q1", ["a", "b"], 0, "e1"⟩, ⟨"q2", ["c", "d"], 1, "e2"⟩]
        5 (PyRandom.init 3)).fst).length
      = (min 5 ((([⟨"q1", ["a", "b"], 0, "e1"⟩,
          ⟨"q2", ["c", "d"], 1, "e2"⟩] : List Question)).length : Int)).toNat
    ∧ (selectQuiz [] (-2) (PyRandom.init 3)).fst = [] :=
  ⟨by decide,
   (C8_selection_size [⟨"q1", ["a", "b"], 0, "e1"⟩, ⟨"q2", ["c", "d"], 1, "e2"⟩]
     5 (PyRandom.init 3)).2.2.1 (by decide),
   (C8_selection_size [] (-2) (PyRandom.init 3)).2.2.2.2 rfl⟩

/-- An existing witness in the accumulator survives one bank step. -/
theorem exists_mem_bankStep (acc : List Question × PyRandom)
    (s : Bool × (PyRandom → Question × PyRandom)) (P : Question → Prop)
    (h : ∃ q ∈ acc.fst, P q) : ∃ q ∈ (bankStep acc s).fst, P q := by
  obtain ⟨q, hq, hP⟩ := h
  exact ⟨q, mem_bankStep acc s q hq, hP⟩

/-- An enabled bank step contributes its builder's question. -/
theorem bankStep_true_exists (acc : List Question × PyRandom)
    (mk : PyRandom → Question × PyRandom) (P : Question → Prop)
    (h : ∀ g, P (mk g).fst) : ∃ q ∈ (bankStep acc (true, mk)).fst, P q := by
  refine ⟨(mk acc.snd).fst, ?_, h acc.snd⟩
  show (mk acc.snd).fst ∈ acc.fst ++ [(mk acc.snd).fst]
  exact List.mem_append_right _ (List.mem_singleton_self _)

/-- An enabled bank step leaves at least one question. -/
theorem bankStep_true_len (acc : List Question × PyRandom)
    (mk : PyRandom → Question × PyRandom) :
    1 ≤ (bankStep acc (true, mk)).fst.length := by
  show 1 ≤ (acc.fst ++ [(mk acc.snd).fst]).length
  rw [List.length_append, List.length_singleton]
  omega

/-- The bank is never empty: the price-direction entry is unconditional. -/
theorem bank_nonempty (ticker : String) (analysis : PAnalysis) (g : PyRandom) :
    1 ≤ (buildBank ticker analysis g).fst.length := by
  simp only [buildBank, bankSpec, List.foldl_cons, List.foldl_nil]
  refine le_trans ?_ (bankStep_len _ _)
  refine le_trans ?_ (bankStep_len _ _)
  refine le_trans ?_ (bankStep_len _ _)
  refine le_trans ?_ (bankStep_len _ _)
  refine le_trans ?_ (bankStep_len _ _)
  refine le_trans ?_ (bankStep_len _ _)
  refine le_trans ?_ (bankStep_len _ _)
  refine le_trans ?_ (bankStep_len _ _)
  exact bankStep_true_len _ _

/-- `_safe_float` with `None` default is absent whenever `float(x)` would
fail (or `x` is `None`). -/
theorem safe_float_none (x : PyVal) (h : pyFloat x = Option.none) :
    _safe_float x Option.none = Option.none := by
  cases x with
  | none => rfl
  | num f => simp [pyFloat] at h
  | str s =>
    simp only [pyFloat] at h
    simp only [_safe_float, pyFloat, h]
  | other => rfl

/-- Strings with different two-character prefixes differ. -/
theorem ne_of_firstTwo {a b : String} (h : firstTwo a ≠ firstTwo b) : a ≠ b :=
  fun e => h (congrArg firstTwo e)

/-- The two-character prefix of an append is that of its (long enough)
left part. -/
theorem firstTwo_append (a b : String) (h : 2 ≤ a.length) :
    firstTwo (a ++ b) = firstTwo a := by
  unfold firstTwo
  rw [String.data_append]
  exact List.take_append_of_le_length h

/-- Appending on the right preserves a length lower bound. -/
theorem two_le_len_append (a b : String) (h : 2 ≤ a.length) : 2 ≤ (a ++ b).length := by
  rw [String.length_append]
  omega

/-- **C9** (corrected).  Numeric-fundamentals coercion as the code
actually behaves: an unconvertible market cap is treated as absent and the
market-cap question never enters the bank (first conjunct, the surviving
half of the claim); but trailing P/E, dividend yield and beta are only
presence-tested, so a *present non-numeric* value still generates the
corresponding question (remaining conjuncts, refuting "no question is
generated").  Nothing raises in any case (the embedding is total). -/
theorem C9_numeric_coercion (ticker : String) (analysis : PAnalysis) (g : PyRandom) :
    (pyFloat (analysis.company.getD CompanyD.empty).market_cap = Option.none →
      ∀ q ∈ (buildBank ticker analysis g).fst,
        q.question ≠ "Based on the market cap, " ++ ticker
          ++ " would typically be considered:")
    ∧ ((analysis.company.getD CompanyD.empty).trailing_pe ≠ PyVal.none →
      ∃ q ∈ (buildBank ticker analysis g).fst,
        q.question = "What does the P/E ratio (Price/Earnings) represent?")
    ∧ ((analysis.company.getD CompanyD.empty).dividend_yield ≠ PyVal.none →
      ∃ q ∈ (buildBank ticker analysis g).fst,
        q.question = "Dividend yield is best described as:")
    ∧ ((analysis.company.getD CompanyD.empty).beta ≠ PyVal.none →
      ∃ q ∈ (buildBank ticker analysis g).fst,
        q.question = "Beta (vs. the overall market) is best interpreted as:") := by
  refine ⟨?_, ?_, ?_, ?_⟩
  · intro hmc
    have hmcT : firstTwo ("Based on the market cap, " ++ ticker
        ++ " would typically be considered:") = ['B', 'a'] := by
      rw [firstTwo_append _ _ (two_le_len_append _ _ (by decide)),
        firstTwo_append _ _ (by decide)]
      decide
    simp only [buildBank, bankSpec]
    apply bank_foldl_all
    · intro s hs hcond g'
      simp only [List.mem_cons, List.not_mem_nil, or_false] at hs
      rcases hs with rfl|rfl|rfl|rfl|rfl|rfl|rfl|rfl|rfl|rfl|rfl|rfl|rfl|rfl
      · rw [make_question_question]
        apply ne_of_firstTwo
        rw [hmcT, firstTwo_append _ _ (two_le_len_append _ _ (by decide)),
          firstTwo_append _ _ (by decide)]
        decide
      · rw [make_question_question]
        apply ne_of_firstTwo
        rw [hmcT, firstTwo_append _ _ (two_le_len_append _ _ (by decide)),
          firstTwo_append _ _ (by decide)]
        decide
      · rw [make_question_question]
        apply ne_of_firstTwo
        rw [hmcT, firstTwo_append _ _ (two_le_len_append _ _ (by decide)),
          firstTwo_append _ _ (by decide)]
        decide
      · rw [make_question_question]
        apply ne_of_firstTwo
        rw [hmcT, firstTwo_append _ _ (two_le_len_append _ _ (by decide)),
          firstTwo_append _ _ (by decide)]
        decide
      · rw [make_question_question]
        apply ne_of_firstTwo
        rw [hmcT, firstTwo_append _ _ (two_le_len_append _ _ (by decide)),
          firstTwo_append _ _ (by decide)]
        decide
      · rw [make_question_question]
        apply ne_of_firstTwo
        rw [hmcT, firstTwo_append _ _ (two_le_len_append _ _ (by decide)),
          firstTwo_append _ _ (by decide)]
        decide
      · rw [make_question_question]
        apply ne_of_firstTwo
        rw [hmcT,
          firstTwo_append _ _ (two_le_len_append _ _ (two_le_len_append _ _
            (two_le_len_append _ _ (by decide)))),
          firstTwo_append _ _ (two_le_len_append _ _ (two_le_len_append _ _ (by decide))),
          firstTwo_append _ _ (two_le_len_append _ _ (by decide)),
          firstTwo_append _ _ (by decide)]
        decide
      · rw [make_question_question]
        apply ne_of_firstTwo
        rw [hmcT, firstTwo_append _ _ (two_le_len_append _ _ (by decide)),
          firstTwo_append _ _ (by decide)]
        decide
      · rw [make_question_question]
        apply ne_of_firstTwo
        rw [hmcT,
          firstTwo_append _ _ (two_le_len_append _ _ (two_le_len_append _ _
            (two_le_len_append _ _ (by decide)))),
          firstTwo_append _ _ (two_le_len_append _ _ (two_le_len_append _ _ (by decide))),
          firstTwo_append _ _ (two_le_len_append _ _ (by decide)),
          firstTwo_append _ _ (by decide)]
        decide
      · rw [make_question_question]
        apply ne_of_firstTwo
        rw [hmcT, firstTwo_append _ _ (two_le_len_append _ _ (by decide)),
          firstTwo_append _ _ (by decide)]
        decide
      · rw [safe_float_none _ hmc] at hcond
        simp at hcond
      · rw [make_question_question]
        apply ne_of_firstTwo
        rw [hmcT]
        decide
      · rw [make_question_question]
        apply ne_of_firstTwo
        rw [hmcT]
        decide
      · rw [make_question_question]
        apply ne_of_firstTwo
        rw [hmcT]
        decide
    · intro q hq
      exact absurd hq (List.not_mem_nil q)
  · intro hpe
    have hcond : decide ((analysis.company.getD CompanyD.empty).trailing_pe
        ≠ PyVal.none) = true := decide_eq_true hpe
    simp only [buildBank, bankSpec, List.foldl_cons, List.foldl_nil, hcond]
    iterate 2 apply exists_mem_bankStep
    apply bankStep_true_exists
    intro g'
    exact make_question_question _ _ _ _ _ _
  · intro hdy
    have hcond : decide ((analysis.company.getD CompanyD.empty).dividend_yield
        ≠ PyVal.none) = true := decide_eq_true hdy
    simp only [buildBank, bankSpec, List.foldl_cons, List.foldl_nil, hcond]
    iterate 1 apply exists_mem_bankStep
    apply bankStep_true_exists
    intro g'
    exact make_question_question _ _ _ _ _ _
  · intro hbeta
    have hcond : decide ((analysis.company.getD CompanyD.empty).beta
        ≠ PyVal.none) = true := decide_eq_true hbeta
    simp only [buildBank, bankSpec, List.foldl_cons, List.foldl_nil, hcond]
    apply bankStep_true_exists
    intro g'
    exact make_question_question _ _ _ _ _ _

/-- Witness for C9 at a concrete company record whose market cap,
trailing P/E, dividend yield and beta are all present but unparseable
strings. -/
theorem C9_witness :
    pyFloat (PyVal.str "not-a-number") = Option.none
    ∧ PyVal.str "n/a" ≠ PyVal.none
    ∧ PyVal.str "high" ≠ PyVal.none
    ∧ PyVal.str "unknown" ≠ PyVal.none
    ∧ (∀ q ∈ (buildBank "XYZ"
        ⟨some ⟨Option.none, Option.none, Option.none, Option.none, Option.none,
               Option.none, Option.none, PyVal.str "not-a-number", PyVal.str "n/a",
               PyVal.str "high", PyVal.str "unknown"⟩, Option.none⟩
        (PyRandom.init 0)).fst,
        q.question ≠ "Based on the market cap, " ++ "XYZ"
          ++ " would typically be considered:")
    ∧ (∃ q ∈ (buildBank "XYZ"
        ⟨some ⟨Option.none, Option.none, Option.none, Option.none, Option.none,
               Option.none, Option.none, PyVal.str "not-a-number", PyVal.str "n/a",
               PyVal.str "high", PyVal.str "unknown"⟩, Option.none⟩
        (PyRandom.init 0)).fst,
        q.question = "What does the P/E ratio (Price/Earnings) represent?")
    ∧ (∃ q ∈ (buildBank "XYZ"
        ⟨some ⟨Option.none, Option.none, Option.none, Option.none, Option.none,
               Option.none, Option.none, PyVal.str "not-a-number", PyVal.str "n/a",
               PyVal.str "high", PyVal.str "unknown"⟩, Option.none⟩
        (PyRandom.init 0)).fst,
        q.question = "Dividend yield is best described as:")
    ∧ (∃ q ∈ (buildBank "XYZ"
        ⟨some ⟨Option.none, Option.none, Option.none, Option.none, Option.none,
               Option.none, Option.none, PyVal.str "not-a-number", PyVal.str "n/a",
               PyVal.str "high", PyVal.str "unknown"⟩, Option.none⟩
        (PyRandom.init 0)).fst,
        q.question = "Beta (vs. the overall market) is best interpreted as:") :=
  ⟨by decide, by decide, by decide, by decide,
   (C9_numeric_coercion "XYZ"
     ⟨some ⟨Option.none, Option.none, Option.none, Option.none, Option.none,
            Option.none, Option.none, PyVal.str "not-a-number", PyVal.str "n/a",
            PyVal.str "high", PyVal.str "unknown"⟩, Option.none⟩
     (PyRandom.init 0)).1 (by decide),
   (C9_numeric_coercion "XYZ"
     ⟨some ⟨Option.none, Option.none, Option.none, Option.none, Option.none,
            Option.none, Option.none, PyVal.str "not-a-number", PyVal.str "n/a",
            PyVal.str "high", PyVal.str "unknown"⟩, Option.none⟩
     (PyRandom.init 0)).2.1 (by decide),
   (C9_numeric_coercion "XYZ"
     ⟨some ⟨Option.none, Option.none, Option.none, Option.none, Option.none,
            Option.none, Option.none, PyVal.str "not-a-number", PyVal.str "n/a",
            PyVal.str "high", PyVal.str "unknown"⟩, Option.none⟩
     (PyRandom.init 0)).2.2.1 (by decide),
   (C9_numeric_coercion "XYZ"
     ⟨some ⟨Option.none, Option.none, Option.none, Option.none, Option.none,
            Option.none, Option.none, PyVal.str "not-a-number", PyVal.str "n/a",
            PyVal.str "high", PyVal.str "unknown"⟩, Option.none⟩
     (PyRandom.init 0)).2.2.2 (by decide)⟩

/-- Counterexample to C9 as stated: `"n/a"`, `"high"` and `"unknown"` are
unparseable (`float(...)` raises, modelled as `none`), yet the question
bank built from a company record carrying them as trailing P/E, dividend
yield and beta *does* contain the P/E, dividend-yield and beta
questions. -/
theorem C9_counterexample :
    pyFloat (PyVal.str "n/a") = Option.none
    ∧ pyFloat (PyVal.str "high") = Option.none
    ∧ pyFloat (PyVal.str "unknown") = Option.none
    ∧ ((buildBank "ACME"
        ⟨some ⟨Option.none, Option.none, Option.none, Option.none, Option.none,
               Option.none, Option.none, PyVal.none, PyVal.str "n/a",
               PyVal.str "high", PyVal.str "unknown"⟩, Option.none⟩
        (PyRandom.init 0)).fst.map
        Question.question).contains "What does the P/E ratio (Price/Earnings) represent?"
      = true
    ∧ ((buildBank "ACME"
        ⟨some ⟨Option.none, Option.none, Option.none, Option.none, Option.none,
               Option.none, Option.none, PyVal.none, PyVal.str "n/a",
               PyVal.str "high", PyVal.str "unknown"⟩, Option.none⟩
        (PyRandom.init 0)).fst.map
        Question.question).contains "Dividend yield is best described as:" = true
    ∧ ((buildBank "ACME"
        ⟨some ⟨Option.none, Option.none, Option.none, Option.none, Option.none,
               Option.none, Option.none, PyVal.none, PyVal.str "n/a",
               PyVal.str "high", PyVal.str "unknown"⟩, Option.none⟩
        (PyRandom.init 0)).fst.map
        Question.question).contains "Beta (vs. the overall market) is best interpreted as:"
      = true :=
  ⟨by decide, by decide, by decide, by decide, by decide, by decide⟩

/-- **C10** (confirmed).  The price-direction question is added
unconditionally, so the bank is never empty and the quiz always has at
least one question; and when the price-metrics mapping is missing or
empty, the missing period return is treated as `0.0`, so the bank's
price-direction question records `"Increased in value"` as its correct
option (at a valid index, even after its option shuffle). -/
theorem C10_price_direction (ticker : String) (analysis : PAnalysis)
    (user_level : String) (k : Int) (seed : Nat) :
    1 ≤ (buildBank ticker analysis (PyRandom.init seed)).fst.length
    ∧ 1 ≤ (generate_quiz_and_flashcards ticker analysis user_level k seed).quiz.length
    ∧ ((analysis.price_metrics = Option.none
        ∨ analysis.price_metrics = some MetricsD.empty) →
      ∃ q ∈ (buildBank ticker analysis (PyRandom.init seed)).fst,
        q.question = "Over the selected period, the price of " ++ ticker ++ " has:"
        ∧ q.correct_option_index < q.options.length
        ∧ q.options[q.correct_option_index]? = some "Increased in value") := by
  refine ⟨bank_nonempty ticker analysis (PyRandom.init seed), ?_, ?_⟩
  · show 1 ≤ (selectQuiz (buildBank ticker analysis (PyRandom.init seed)).fst k
      (buildBank ticker analysis (PyRandom.init seed)).snd).fst.length
    apply selectQuiz_len_pos
    have h := bank_nonempty ticker analysis (PyRandom.init seed)
    exact List.length_pos.mp (by omega)
  · intro h
    have hpm : analysis.price_metrics.getD MetricsD.empty = MetricsD.empty := by
      rcases h with h | h <;> rw [h] <;> rfl
    simp only [buildBank, bankSpec, hpm, List.foldl_cons, List.foldl_nil]
    iterate 8 apply exists_mem_bankStep
    apply bankStep_true_exists
    intro g
    refine ⟨make_question_question _ _ _ _ _ _, ?_⟩
    have hs := make_question_spec
      ("Over the selected period, the price of " ++ ticker ++ " has:")
      ["Increased in value", "Decreased in value", "Stayed exactly the same",
       "We do not know from the data"]
      (if fge0 (pyOrF (_safe_float MetricsD.empty.period_return_pct
          (some (PFloat.fin 0))) (PFloat.fin 0)) = true then 0 else 1)
      ("The total period return is "
        ++ _fmt_pct (some (pyOrF (_safe_float MetricsD.empty.period_return_pct
            (some (PFloat.fin 0))) (PFloat.fin 0)))
        ++ ". Positive means up; negative means down.")
      g true (by decide)
    exact ⟨hs.2.1, hs.2.2.trans (by decide)⟩

/-- Witness for C10 at a concrete record with no price metrics at all. -/
theorem C10_witness :
    1 ≤ (buildBank "TSLA" ⟨Option.none, Option.none⟩ (PyRandom.init 1)).fst.length
    ∧ 1 ≤ (generate_quiz_and_flashcards "TSLA" ⟨Option.none, Option.none⟩
        "Beginner" 5 1).quiz.length
    ∧ (∃ q ∈ (buildBank "TSLA" ⟨Option.none, Option.none⟩ (PyRandom.init 1)).fst,
        q.question = "Over the selected period, the price of " ++ "TSLA" ++ " has:"
        ∧ q.correct_option_index < q.options.length
        ∧ q.options[q.correct_option_index]? = some "Increased in value") :=
  ⟨(C10_price_direction "TSLA" ⟨Option.none, Option.none⟩ "Beginner" 5 1).1,
   (C10_price_direction "TSLA" ⟨Option.none, Option.none⟩ "Beginner" 5 1).2.1,
   (C10_price_direction "TSLA" ⟨Option.none, Option.none⟩ "Beginner" 5 1).2.2
     (Or.inl rfl)⟩
